import Mathlib

/-!
Shallow embedding of the Dream game server core (package `game`) and proofs about it.

Coordinates, speeds and radii are Go `float64` values; they are embedded as real
numbers.  Timestamps (`time.Time`) are embedded as real numbers counting seconds,
and durations as real numbers of seconds (`10 * time.Second` becomes `10`).
Go maps keyed by identifier strings are embedded as lists, and the arbitrary map
iteration order of Go becomes the list order; map lookup becomes a `find?` style
scan and map write becomes an identifier-directed pointwise update.
Mutation through pointers is embedded as explicit state passing: an operation on
the world returns the new world, and notifications written to a websocket are
returned as a list of `Notif` values.
-/

namespace Dream

noncomputable section

/-- Constants from the source: `PlayerRadius = 15.0`, `CollisionBuffer = 5.0`. -/
def PlayerRadius : ℝ := 15

/-- `CollisionBuffer = 5.0`. -/
def CollisionBuffer : ℝ := 5

/-- `Zone` — a rectangular game zone. -/
structure Zone where
  MinX : ℝ
  MaxX : ℝ
  MinY : ℝ
  MaxY : ℝ
  Color : String

/-- `Portal` — a teleportation portal; `To` is the identifier of the linked portal. -/
structure Portal where
  ID : String
  X : ℝ
  Y : ℝ
  To : String
  Zone : String

/-- `MobType` — the three mob archetypes. -/
inductive MobType where
  | goblin
  | orc
  | wolf
deriving DecidableEq

/-- `PetalType` — companion item types, derived from the mob archetypes. -/
inductive PetalType where
  | wolf
  | goblin
  | orc
deriving DecidableEq

/-- `Rarity` — the five rarity tiers. -/
inductive Rarity where
  | common
  | uncommon
  | rare
  | epic
  | legendary
deriving DecidableEq

/-- `MobState` — the AI states. -/
inductive MobState where
  | wandering
  | chasing
  | attacking
  | fleeing
deriving DecidableEq

/-- `Petal` — a companion item orbiting its owner. -/
structure Petal where
  ID : String
  type : PetalType
  Health : ℤ
  MaxHealth : ℤ
  Damage : ℤ
  HealAmount : ℤ
  HealRate : ℝ
  Radius : ℝ
  Angle : ℝ
  Speed : ℝ
  OwnerID : String
  IsActive : Bool
  LastHeal : ℝ
  LastAttack : ℝ
  X : ℝ
  Y : ℝ

/-- `PetalDrop` — a loot drop left by a dead mob, owned exclusively by one player. -/
structure PetalDrop where
  ID : String
  type : PetalType
  X : ℝ
  Y : ℝ
  OwnerID : String
  Zone : String
  Created : ℝ
  Lifetime : ℝ

/-- `Player` — a connected player. -/
structure Player where
  ID : String
  UserID : String
  Username : String
  X : ℝ
  Y : ℝ
  Color : String
  Speed : ℝ
  PortalCooldown : ℝ
  CurrentZone : String
  Radius : ℝ
  Health : ℤ
  MaxHealth : ℤ
  CollisionDamage : ℤ
  LastHitTime : ℝ
  Petals : List Petal

/-- `Mob` — a roaming creature. -/
structure Mob where
  ID : String
  type : MobType
  Rarity : Rarity
  Health : ℤ
  MaxHealth : ℤ
  Damage : ℤ
  Speed : ℝ
  X : ℝ
  Y : ℝ
  Zone : String
  Radius : ℝ
  DetectionRange : ℝ
  TargetX : ℝ
  TargetY : ℝ
  LastMoveTime : ℝ
  State : MobState
  TargetPlayer : String
  AttackCooldown : ℝ
  CreationTime : ℝ
  LastHitTime : ℝ

/-- Outbound notifications written to a connection (`conn.WriteJSON(...)`). -/
inductive Notif where
  | portalTeleport (fromZone toZone : String)
  | damageTaken (damage : ℤ) (health : ℤ) (maxHealth : ℤ)
  | playerDied (health : ℤ)
  | mobKilled (mobType : MobType) (rarity : Rarity)
  | mobKilledByPetal (mobType : MobType) (petalType : PetalType)
  | petalDropCreated (id : String) (ty : PetalType) (x y : ℝ)
  | petalPickedUp (ty : PetalType)
  | petalDestroyed (petalID : String) (ty : PetalType)
  | playerRespawned (health : ℤ) (x y : ℝ) (zone : String)

/-- `Game` — the world state behind the single mutex.  Connections are not part of
the embedded state; notifications appear as explicit outputs instead. -/
structure Game where
  players : List Player
  mobs : List Mob
  portals : List Portal
  zones : List (String × Zone)
  petalDrops : List PetalDrop

/-- Lookup in the `g.zones` map. -/
def Game.zone (g : Game) (name : String) : Option Zone :=
  (g.zones.find? (fun z => z.1 = name)).map (fun z => z.2)

/-- Lookup in the `g.portals` map (`g.portals[id]`). -/
def lookupPortal (portals : List Portal) (id : String) : Option Portal :=
  portals.find? (fun p => p.ID = id)

/-- Lookup in the `g.players` map (`g.players[playerID]`). -/
def Game.player (g : Game) (id : String) : Option Player :=
  g.players.find? (fun p => p.ID = id)

/-- Lookup in the `g.mobs` map. -/
def Game.mob (g : Game) (id : String) : Option Mob :=
  g.mobs.find? (fun m => m.ID = id)

/-- Writing the mutated player back through its pointer: every occurrence of the
identifier in the store now sees the new value. -/
def Game.setPlayer (g : Game) (p : Player) : Game :=
  { g with players := g.players.map (fun q => if q.ID = p.ID then p else q) }

/-- Writing a mutated mob back through its pointer. -/
def Game.setMob (g : Game) (m : Mob) : Game :=
  { g with mobs := g.mobs.map (fun q => if q.ID = m.ID then m else q) }

/-- `cos (atan2 y x)` from `math.Cos(math.Atan2(dy, dx))`: for a nonzero vector
this equals `x / sqrt (x*x + y*y)`; Go defines `Atan2(0, 0) = 0`, whose cosine
is `1`. -/
def cosAtan2 (y x : ℝ) : ℝ :=
  if x = 0 ∧ y = 0 then 1 else x / Real.sqrt (x * x + y * y)

/-- `sin (atan2 y x)`; Go defines `Atan2(0, 0) = 0`, whose sine is `0`. -/
def sinAtan2 (y x : ℝ) : ℝ :=
  if x = 0 ∧ y = 0 then 0 else y / Real.sqrt (x * x + y * y)

/-- `IsAlive` — `p.Health > 0`. -/
def Player.IsAlive (p : Player) : Prop := 0 < p.Health

instance (p : Player) : Decidable p.IsAlive := by unfold Player.IsAlive; infer_instance

/-- `DistanceTo` — Euclidean distance from the player to a point. -/
def Player.DistanceTo (p : Player) (otherX otherY : ℝ) : ℝ :=
  Real.sqrt ((p.X - otherX) * (p.X - otherX) + (p.Y - otherY) * (p.Y - otherY))

/-- `CanAttack` — at least 100 ms (0.1 s) since `LastHitTime`. -/
def Player.CanAttack (p : Player) (now : ℝ) : Prop := 0.1 ≤ now - p.LastHitTime

instance (p : Player) (now : ℝ) : Decidable (p.CanAttack now) := by
  unfold Player.CanAttack; infer_instance

/-- `MarkAttack` — records the attack time. -/
def Player.MarkAttack (p : Player) (now : ℝ) : Player := { p with LastHitTime := now }

/-- `Respawn` — full health at the given position; the current zone is not touched. -/
def Player.Respawn (p : Player) (x y : ℝ) (now : ℝ) : Player :=
  { p with Health := p.MaxHealth, X := x, Y := y, LastHitTime := now }

/-- `Mob.IsAlive` — `m.Health > 0`. -/
def Mob.IsAlive (m : Mob) : Prop := 0 < m.Health

instance (m : Mob) : Decidable m.IsAlive := by unfold Mob.IsAlive; infer_instance

/-- `Mob.TakeDamage` — subtract and clamp at zero. -/
def Mob.TakeDamage (m : Mob) (damage : ℤ) : Mob :=
  let h := m.Health - damage
  { m with Health := if h < 0 then 0 else h }

/-- `Mob.CanAttack` — at least 100 ms since the last hit this mob dealt. -/
def Mob.CanAttack (m : Mob) (now : ℝ) : Prop := 0.1 ≤ now - m.LastHitTime

instance (m : Mob) (now : ℝ) : Decidable (m.CanAttack now) := by
  unfold Mob.CanAttack; infer_instance

/-- `Mob.MarkAttack`. -/
def Mob.MarkAttack (m : Mob) (now : ℝ) : Mob := { m with LastHitTime := now }

/-- `constrainToZone` — clamp a candidate position to the rectangle of the
current zone of the player; when the current zone is not in the table the
player is sent to `common` first.  The returned string is the possibly
updated `CurrentZone` field.  (If the `common` zone itself were missing, Go
would dereference a nil pointer; the initialized game always has it, and that
unreachable case is embedded as the unclamped position.) -/
def Game.constrainToZone (g : Game) (player : Player) (x y : ℝ) : String × ℝ × ℝ :=
  match g.zone player.CurrentZone with
  | some zone =>
      (player.CurrentZone, clamp zone)
  | none =>
      match g.zone "common" with
      | some zone => ("common", clamp zone)
      | none => ("common", x, y)
where
  clamp (zone : Zone) : ℝ × ℝ :=
    let x := if x < zone.MinX then zone.MinX else x
    let x := if x > zone.MaxX then zone.MaxX else x
    let y := if y < zone.MinY then zone.MinY else y
    let y := if y > zone.MaxY then zone.MaxY else y
    (x, y)

/-- One iteration of the player avoidance loop in `MovePlayer`: if the other
player is too close to the candidate position, blend 30 percent of the way to
the minimum separation point.  The loop body skips the moving player itself. -/
def avoidStep (player : Player) (pos : ℝ × ℝ) (other : Player) : ℝ × ℝ :=
  if other.ID = player.ID then pos
  else
    let dx := pos.1 - other.X
    let dy := pos.2 - other.Y
    let distSq := dx * dx + dy * dy
    let minDist := player.Radius + other.Radius + CollisionBuffer
    if distSq < minDist * minDist then
      let pushX := other.X + cosAtan2 dy dx * minDist
      let pushY := other.Y + sinAtan2 dy dx * minDist
      (pos.1 * 0.7 + pushX * 0.3, pos.2 * 0.7 + pushY * 0.3)
    else pos

/-- The `for _, other := range g.players` avoidance loop of `MovePlayer`. -/
def avoidOtherPlayers (players : List Player) (player : Player) (pos : ℝ × ℝ) : ℝ × ℝ :=
  players.foldl (avoidStep player) pos

/-- The `for _, portal := range g.portals` scan of `checkPortalInteraction`:
the first portal whose squared distance to the player is at most `100 * 100`. -/
def portalHit (x y : ℝ) : List Portal → Option Portal
  | [] => none
  | portal :: rest =>
      if (x - portal.X) * (x - portal.X) + (y - portal.Y) * (y - portal.Y) ≤
          100 * 100 then some portal
      else portalHit x y rest

/-- `teleportPlayer` — move the player to the linked portal, switch the zone,
arm the 10 second cooldown and emit the notification; a missing destination
portal makes the whole call a no-op. -/
def Game.teleportPlayer (g : Game) (player : Player) (fromPortal : Portal) (now : ℝ) :
    Player × List Notif :=
  match lookupPortal g.portals fromPortal.To with
  | none => (player, [])
  | some toPortal =>
      ({ player with
          X := toPortal.X
          Y := toPortal.Y
          CurrentZone := toPortal.Zone
          PortalCooldown := now + 10 },
        [Notif.portalTeleport fromPortal.Zone toPortal.Zone])

/-- `checkPortalInteraction` — nothing happens while the portal cooldown has not
elapsed; otherwise the first portal within radius 100 triggers a teleport. -/
def Game.checkPortalInteraction (g : Game) (player : Player) (now : ℝ) :
    Player × List Notif :=
  if now < player.PortalCooldown then (player, [])
  else
    match portalHit player.X player.Y g.portals with
    | none => (player, [])
    | some portal => g.teleportPlayer player portal now

/-- `MovePlayer` — the move command handler: lookup, normalization of the intent
vector, scaling by speed, zone clamping, soft avoidance of the other players,
then the portal check.  An unknown player id is ignored. -/
def Game.MovePlayer (g : Game) (playerID : String) (dx dy : ℝ) (now : ℝ) :
    Game × List Notif :=
  match g.player playerID with
  | none => (g, [])
  | some player =>
      let length := Real.sqrt (dx * dx + dy * dy)
      let dx := if length > 0 then dx / length else dx
      let dy := if length > 0 then dy / length else dy
      let newX := player.X + dx * player.Speed
      let newY := player.Y + dy * player.Speed
      let czc := g.constrainToZone player newX newY
      let player1 := { player with CurrentZone := czc.1 }
      let pos := avoidOtherPlayers g.players player1 czc.2
      let player2 := { player1 with X := pos.1, Y := pos.2 }
      let pn := g.checkPortalInteraction player2 now
      (g.setPlayer pn.1, pn.2)

/-- The `switch mob.Type` mapping used when a mob dies: wolf drops wolf,
goblin drops goblin, orc drops orc (the `default` arm falls back to goblin and
is unreachable for the closed archetype type). -/
def petalTypeForMob : MobType → PetalType
  | MobType.wolf => PetalType.wolf
  | MobType.goblin => PetalType.goblin
  | MobType.orc => PetalType.orc

/-- `createPetalDrop` — create one loot drop at the given position with the
given owner and a 30 second lifetime, and notify the owner; an unknown owner id
makes the call a no-op.  The fresh identifier (in Go a timestamp) is passed in
explicitly. -/
def Game.createPetalDrop (g : Game) (playerID : String) (ty : PetalType)
    (x y : ℝ) (dropID : String) (now : ℝ) : Game × List Notif :=
  match g.player playerID with
  | none => (g, [])
  | some player =>
      let drop : PetalDrop :=
        { ID := dropID, type := ty, X := x, Y := y, OwnerID := playerID,
          Zone := player.CurrentZone, Created := now, Lifetime := 30 }
      ({ g with petalDrops := g.petalDrops ++ [drop] },
        [Notif.petalDropCreated dropID ty x y])

/-- Modelled from the spec: `Player.TakeDamageFromMob` is called from
`handlePlayerMobCollision` but its body is not under src.  Per the spec the rate
limit for mob to player damage is the cooldown of the attacking creature, which
the caller already checks through `Mob.CanAttack`, so this applies the damage,
clamps health at zero, records the hit time, and reports that damage was dealt. -/
def Player.TakeDamageFromMob (p : Player) (damage : ℤ) (now : ℝ) : Player × Bool :=
  let h := p.Health - damage
  ({ p with Health := if h < 0 then 0 else h, LastHitTime := now }, true)

/-- Modelled from the spec: `Player.RemoveAllPetals` is called from
`handlePlayerDeath` but its body is not under src; the spec says a death strips
all owned companion items. -/
def Player.RemoveAllPetals (p : Player) : Player := { p with Petals := [] }

/-- `handlePlayerDeath` — notify and strip the petals; the player stays in the
store. -/
def Game.handlePlayerDeath (player : Player) : Player × List Notif :=
  (player.RemoveAllPetals, [Notif.playerDied player.Health])

/-- `handlePlayerMobCollision` — the mutual rate-limited damage exchange of one
player and one colliding mob: the mob hits the player under the mob cooldown
(possibly killing the player), then the player deals its collision damage under
its own cooldown; if that kills the mob, exactly one loot drop typed by
`petalTypeForMob` and owned by the player is created at the mob position. -/
def Game.handlePlayerMobCollision (g : Game) (player : Player) (mob : Mob)
    (now : ℝ) (dropID : String) : Game × Player × Mob × List Notif :=
  let step1 :
      Player × Mob × List Notif :=
    if mob.CanAttack now then
      let pd := player.TakeDamageFromMob mob.Damage now
      if pd.2 then
        let mob := mob.MarkAttack now
        let notifs := [Notif.damageTaken mob.Damage pd.1.Health pd.1.MaxHealth]
        if ¬ pd.1.IsAlive then
          let dn := Game.handlePlayerDeath pd.1
          (dn.1, mob, notifs ++ dn.2)
        else (pd.1, mob, notifs)
      else (pd.1, mob, [])
    else (player, mob, [])
  let player := step1.1
  let mob := step1.2.1
  if player.CanAttack now then
    let mob := mob.TakeDamage player.CollisionDamage
    let player := player.MarkAttack now
    if ¬ mob.IsAlive then
      let gd := g.createPetalDrop player.ID (petalTypeForMob mob.type) mob.X mob.Y dropID now
      (gd.1, player, mob,
        step1.2.2 ++ gd.2 ++ [Notif.mobKilled mob.type mob.Rarity])
    else (g, player, mob, step1.2.2)
  else (g, player, mob, step1.2.2)

/-- `removeDeadMobs` — drop every mob whose health reached zero. -/
def Game.removeDeadMobs (g : Game) : Game :=
  { g with mobs := g.mobs.filter (fun m => decide m.IsAlive) }

/-- The inner `for _, mob := range mobs` loop of `checkCollisions` for one
player: the mob list was copied at the start of the sweep, so the loop walks the
copied identifiers and re-reads the current state of each mob; dead mobs,
mobs of another zone and distant mobs are skipped. -/
def Game.collideWithMobs (g : Game) (playerID : String) (now : ℝ)
    (dropIds : ℕ → String) :
    List String → ℕ → Game × List Notif × ℕ
  | [], k => (g, [], k)
  | mobID :: rest, k =>
      match g.player playerID, g.mob mobID with
      | some player, some mob =>
          if mob.IsAlive ∧ mob.Zone = player.CurrentZone ∧
              player.DistanceTo mob.X mob.Y < player.Radius + mob.Radius then
            let r := g.handlePlayerMobCollision player mob now (dropIds k)
            let g1 := (r.1.setPlayer r.2.1).setMob r.2.2.1
            let rec1 := g1.collideWithMobs playerID now dropIds rest (k + 1)
            (rec1.1, r.2.2.2 ++ rec1.2.1, rec1.2.2)
          else g.collideWithMobs playerID now dropIds rest k
      | _, _ => g.collideWithMobs playerID now dropIds rest k

/-- The outer `for _, player := range players` loop of `checkCollisions`: a
player found dead at the start of its own iteration is skipped. -/
def Game.collidePlayers (g : Game) (now : ℝ) (dropIds : ℕ → String)
    (mobIDs : List String) :
    List String → ℕ → Game × List Notif × ℕ
  | [], k => (g, [], k)
  | playerID :: rest, k =>
      match g.player playerID with
      | some player =>
          if player.IsAlive then
            let r := g.collideWithMobs playerID now dropIds mobIDs k
            let rec1 := r.1.collidePlayers now dropIds mobIDs rest r.2.2
            (rec1.1, r.2.1 ++ rec1.2.1, rec1.2.2)
          else g.collidePlayers now dropIds mobIDs rest k
      | none => g.collidePlayers now dropIds mobIDs rest k

/-- `checkCollisions` — one collision sweep: copy the player and mob stores,
resolve every player versus mob contact, then remove the dead mobs. -/
def Game.checkCollisions (g : Game) (now : ℝ) (dropIds : ℕ → String) :
    Game × List Notif :=
  let r := g.collidePlayers now dropIds (g.mobs.map Mob.ID) (g.players.map Player.ID) 0
  (r.1.removeDeadMobs, r.2.1)

/-- `Petal.CanAttack` — active, carries damage, and at least 500 ms since the
last attack. -/
def Petal.CanAttack (p : Petal) (now : ℝ) : Prop :=
  p.IsActive = true ∧ 0 < p.Damage ∧ 0.5 ≤ now - p.LastAttack

instance (p : Petal) (now : ℝ) : Decidable (p.CanAttack now) := by
  unfold Petal.CanAttack; infer_instance

/-- `Petal.TakeDamage` — subtract health; at zero the petal is clamped and
deactivated. -/
def Petal.TakeDamage (p : Petal) (damage : ℤ) : Petal :=
  let h := p.Health - damage
  if h ≤ 0 then { p with Health := 0, IsActive := false }
  else { p with Health := h }

/-- `handlePetalMobCollision` — a companion item in contact with a mob: the item
hits under its own cooldown; if that kills the mob and the owner is still in the
store, exactly one loot drop owned by the item owner is created at the mob
position; then the mob retaliates under its own cooldown. -/
def Game.handlePetalMobCollision (g : Game) (petal : Petal) (mob : Mob)
    (now : ℝ) (dropID : String) : Game × Petal × Mob × List Notif :=
  let step1 : Game × Petal × Mob × List Notif :=
    if petal.CanAttack now then
      let mob := mob.TakeDamage petal.Damage
      let petal := { petal with LastAttack := now }
      if ¬ mob.IsAlive then
        match g.player petal.OwnerID with
        | some _ =>
            let gd := g.createPetalDrop petal.OwnerID (petalTypeForMob mob.type)
              mob.X mob.Y dropID now
            (gd.1, petal, mob,
              gd.2 ++ [Notif.mobKilled mob.type mob.Rarity,
                Notif.mobKilledByPetal mob.type petal.type])
        | none =>
            (g, petal, mob, [Notif.mobKilledByPetal mob.type petal.type])
      else (g, petal, mob, [])
    else (g, petal, mob, [])
  let g := step1.1
  let petal := step1.2.1
  let mob := step1.2.2.1
  if mob.CanAttack now then
    let petal := petal.TakeDamage mob.Damage
    let mob := mob.MarkAttack now
    if petal.IsActive = false then
      (g, petal, mob, step1.2.2.2 ++ [Notif.petalDestroyed petal.ID petal.type])
    else (g, petal, mob, step1.2.2.2)
  else (g, petal, mob, step1.2.2.2)

/-- `Petal.UpdatePosition` — advance the orbit angle by `Speed * deltaTime`
(wrapping once past two pi) and compute the orbit point around the owner. -/
def Petal.UpdatePosition (p : Petal) (playerX playerY deltaTime : ℝ) :
    Petal × ℝ × ℝ :=
  let a := p.Angle + p.Speed * deltaTime
  let a := if a > 2 * Real.pi then a - 2 * Real.pi else a
  ({ p with Angle := a },
    playerX + p.Radius * Real.cos a,
    playerY + p.Radius * Real.sin a)

/-- `updatePetals` — one 100 ms petal tick: every active petal of every player
advances along its orbit and stores the computed position. -/
def Game.updatePetals (g : Game) : Game :=
  { g with players := g.players.map (fun player =>
      { player with Petals := player.Petals.map (fun petal =>
          if petal.IsActive then
            let u := petal.UpdatePosition player.X player.Y 0.1
            { u.1 with X := u.2.1, Y := u.2.2 }
          else petal) }) }

/-- `PetalDrop.IsExpired` — older than its lifetime. -/
def PetalDrop.IsExpired (d : PetalDrop) (now : ℝ) : Prop := d.Lifetime < now - d.Created

instance (d : PetalDrop) (now : ℝ) : Decidable (d.IsExpired now) := by
  unfold PetalDrop.IsExpired; infer_instance

/-- `CanBePickedBy` — only the owner may consume a drop. -/
def PetalDrop.CanBePickedBy (d : PetalDrop) (playerID : String) : Prop :=
  d.OwnerID = playerID

instance (d : PetalDrop) (playerID : String) : Decidable (d.CanBePickedBy playerID) := by
  unfold PetalDrop.CanBePickedBy; infer_instance

/-- The per petal type configuration table `PetalConfigs`. -/
def PetalConfig : PetalType → ℤ × ℤ × ℤ × ℝ × ℝ × ℝ
  | PetalType.wolf => (50, 0, 5, 2, 60, 1.5)
  | PetalType.goblin => (15, 20, 0, 0, 50, 2)
  | PetalType.orc => (20, 12, 0, 0, 70, 1.2)

/-- `NewPetal` — a fresh petal of the given type for the given owner; the
timestamp based identifier is passed in explicitly. -/
def NewPetal (ty : PetalType) (ownerID : String) (id : String) (now : ℝ) : Petal :=
  let c := PetalConfig ty
  { ID := id, type := ty, Health := c.1, MaxHealth := c.1, Damage := c.2.1,
    HealAmount := c.2.2.1, HealRate := c.2.2.2.1, Radius := c.2.2.2.2.1,
    Angle := 0, Speed := c.2.2.2.2.2, OwnerID := ownerID, IsActive := true,
    LastHeal := now, LastAttack := now, X := 0, Y := 0 }

/-- Modelled from the spec: `Player.AddPetal` is called from `pickUpPetal` but
its body is not under src (only its callers are).  Per the spec, on pickup the
owner gains one matching companion item: a new petal of the type of the drop,
with the per type configuration, owned by this player. -/
def Player.AddPetal (p : Player) (ty : PetalType) (id : String) (now : ℝ) : Player :=
  { p with Petals := p.Petals ++ [NewPetal ty p.ID id now] }

/-- `pickUpPetal` — the owner gains one matching petal, the drop leaves the
store, and the owner is notified. -/
def Game.pickUpPetal (g : Game) (player : Player) (drop : PetalDrop)
    (petalID : String) (now : ℝ) : Game × List Notif :=
  let g := g.setPlayer (player.AddPetal drop.type petalID now)
  ({ g with petalDrops := g.petalDrops.filter (fun d => decide (¬ d.ID = drop.ID)) },
    [Notif.petalPickedUp drop.type])

/-- The pickup condition of `checkPetalDrops`: the drop is owned by this
player, the player is alive, and the drop is within pickup radius 50. -/
def pickupGuard (player : Player) (drop : PetalDrop) : Prop :=
  drop.CanBePickedBy player.ID ∧ player.IsAlive ∧
    player.DistanceTo drop.X drop.Y < 50

instance (player : Player) (drop : PetalDrop) : Decidable (pickupGuard player drop) := by
  unfold pickupGuard
  infer_instance

/-- The `for _, drop := range g.petalDrops` scan for one player in
`checkPetalDrops`: the first drop owned by this living player within pickup
radius 50 is picked up, then the loop breaks. -/
def Game.tryPickupFor (g : Game) (player : Player) (petalID : String) (now : ℝ) :
    List PetalDrop → Game × List Notif
  | [] => (g, [])
  | drop :: rest =>
      if pickupGuard player drop then
        g.pickUpPetal player drop petalID now
      else g.tryPickupFor player petalID now rest

/-- The pickup half of `checkPetalDrops`: each player in turn attempts one
pickup against the current drop store. -/
def Game.pickupPass (g : Game) (now : ℝ) (petalIds : ℕ → String) :
    List String → ℕ → Game × List Notif
  | [], _ => (g, [])
  | playerID :: rest, k =>
      match g.player playerID with
      | some player =>
          let r := g.tryPickupFor player (petalIds k) now g.petalDrops
          let rec1 := r.1.pickupPass now petalIds rest (k + 1)
          (rec1.1, r.2 ++ rec1.2)
      | none => g.pickupPass now petalIds rest (k + 1)

/-- `checkPetalDrops` — one loot tick: remove the expired drops, then let each
player attempt one pickup. -/
def Game.checkPetalDrops (g : Game) (now : ℝ) (petalIds : ℕ → String) :
    Game × List Notif :=
  let g1 := { g with petalDrops := g.petalDrops.filter (fun d => decide (¬ d.IsExpired now)) }
  g1.pickupPass now petalIds (g1.players.map Player.ID) 0

/-- `findSafeSpawnPosition` — up to 20 random candidates inside the zone; a
candidate farther than three times the radius of every other player from each
of them is accepted; otherwise the zone center.  The random coordinates are an
explicit stream, and Go would dereference a nil pointer for an unknown zone
name (the callers always pass `common`), embedded as the missing zone giving
the origin. -/
def spawnTryAt (players : List Player) (zone : Zone) (excludeID : String)
    (randPos : ℕ → ℝ × ℝ) : ℕ → ℝ × ℝ
  | 0 => ((zone.MinX + zone.MaxX) / 2, (zone.MinY + zone.MaxY) / 2)
  | Nat.succ n =>
      let c := randPos (20 - (n + 1))
      if ∀ p ∈ players, p.ID = excludeID ∨
          (c.1 - p.X) * (c.1 - p.X) + (c.2 - p.Y) * (c.2 - p.Y) ≥
            (p.Radius * 3) * (p.Radius * 3) then c
      else spawnTryAt players zone excludeID randPos n

/-- The body of `findSafeSpawnPosition` once the zone is resolved is
`spawnTryAt` with 20 attempts. -/
def Game.findSafeSpawnPosition (g : Game) (zoneName excludeID : String)
    (randPos : ℕ → ℝ × ℝ) : ℝ × ℝ :=
  match g.zone zoneName with
  | none => (0, 0)
  | some zone => spawnTryAt g.players zone excludeID randPos 20

/-- `RespawnPlayer` — only a dead, known player is respawned: it is moved to a
fresh safe spawn position in `common`, restored to full health, and notified. -/
def Game.RespawnPlayer (g : Game) (playerID : String) (now : ℝ)
    (randPos : ℕ → ℝ × ℝ) : Game × List Notif :=
  match g.player playerID with
  | none => (g, [])
  | some player =>
      if player.IsAlive then (g, [])
      else
        let c := g.findSafeSpawnPosition "common" playerID randPos
        let p2 := player.Respawn c.1 c.2 now
        (g.setPlayer p2,
          [Notif.playerRespawned p2.Health p2.X p2.Y p2.CurrentZone])

/-- `getRandomRarity` — draw from the per zone weighted distribution; the zone
distribution tables are association lists in a fixed iteration order, an
unknown zone gives the common tier, and the uniform draw in `[0, 1)` is passed
in. -/
def getRandomRarity (zone : String) (r : ℝ) : Rarity :=
  let distribution : List (Rarity × ℝ) :=
    if zone = "common" then [(Rarity.common, 0.8), (Rarity.uncommon, 0.2)]
    else if zone = "uncommon" then
      [(Rarity.common, 0.5), (Rarity.uncommon, 0.4), (Rarity.rare, 0.1)]
    else if zone = "rare" then
      [(Rarity.common, 0.2), (Rarity.uncommon, 0.6), (Rarity.rare, 0.18),
        (Rarity.epic, 0.02)]
    else if zone = "epic" then
      [(Rarity.common, 0.05), (Rarity.uncommon, 0.5), (Rarity.rare, 0.4),
        (Rarity.epic, 0.05)]
    else if zone = "legendary" then
      [(Rarity.common, 0.99), (Rarity.legendary, 0.01)]
    else []
  if zone = "common" ∨ zone = "uncommon" ∨ zone = "rare" ∨ zone = "epic" ∨
      zone = "legendary" then
    let rec walk (cumulative : ℝ) : List (Rarity × ℝ) → Rarity
      | [] => Rarity.common
      | (rarity, probability) :: rest =>
          if r ≤ cumulative + probability then rarity
          else walk (cumulative + probability) rest
    walk 0 distribution
  else Rarity.common

/-- The rarity multiplier table `RarityMultipliers`
(health, damage, radius, speed). -/
def RarityMultipliers : Rarity → ℝ × ℝ × ℝ × ℝ
  | Rarity.common => (1, 1, 1, 1)
  | Rarity.uncommon => (1.4, 1.3, 1.4, 1.1)
  | Rarity.rare => (1.8, 1.6, 1.8, 1.2)
  | Rarity.epic => (2.25, 2, 2.25, 1.3)
  | Rarity.legendary => (6.75, 6, 6.75, 1.5)

/-- The base archetype table `MobConfigs`
(health, damage, speed, radius, detection range). -/
def MobConfigs : MobType → ℤ × ℤ × ℝ × ℝ × ℝ
  | MobType.goblin => (30, 8, 10, 7, 500)
  | MobType.orc => (80, 15, 20, 25, 500)
  | MobType.wolf => (40, 10, 15, 12, 500)

/-- `applyRarityMultipliers` — scale the base stats by the tier multipliers,
jitter the radius by the passed random offset in `[-5, 5)` and floor it at 2. -/
def applyRarityMultipliers (baseConfig : MobType) (rarity : Rarity)
    (randomOffset : ℝ) : ℤ × ℤ × ℝ × ℝ :=
  let config := MobConfigs baseConfig
  let multiplier := RarityMultipliers rarity
  let health := ⌊(config.1 : ℝ) * multiplier.1⌋
  let damage := ⌊(config.2.1 : ℝ) * multiplier.2.1⌋
  let speed := config.2.2.1 * multiplier.2.2.2
  let radius := config.2.2.2.1 * multiplier.2.2.1 + randomOffset
  (health, damage, speed, if radius < 2 then 2 else radius)

/-- `NewMob` — a fresh mob for the zone; the rarity draw, the radius jitter and
the timestamp based identifier are passed in explicitly. -/
def NewMob (id : String) (mobType : MobType) (x y : ℝ) (zone : String)
    (rarityDraw : ℝ) (radiusJitter : ℝ) (now : ℝ) : Mob :=
  let rarity := getRandomRarity zone rarityDraw
  let s := applyRarityMultipliers mobType rarity radiusJitter
  { ID := id, type := mobType, Rarity := rarity, Health := s.1, MaxHealth := s.1,
    Damage := s.2.1, Speed := s.2.2.1, X := x, Y := y, Zone := zone,
    Radius := s.2.2.2, DetectionRange := (MobConfigs mobType).2.2.2.2,
    TargetX := 0, TargetY := 0, LastMoveTime := now, State := MobState.wandering,
    TargetPlayer := "", AttackCooldown := now, CreationTime := now,
    LastHitTime := now }

/-- The random sources consumed by one spawn cycle, indexed by draw counter. -/
structure SpawnRng where
  mobType : ℕ → MobType
  batch : ℕ → ℕ
  pos : ℕ → ℝ × ℝ
  rarity : ℕ → ℝ
  jitter : ℕ → ℝ
  ids : ℕ → String

/-- The inner `for i := 0; i < count; i++` loop of `spawnMobsIfNeeded`: each
candidate position is kept only when it is at least 200 units from every
player. -/
def spawnBatch (players : List Player) (zoneName : String) (mobType : MobType)
    (rng : SpawnRng) (now : ℝ) : ℕ → ℕ → List Mob × ℕ
  | 0, k => ([], k)
  | Nat.succ i, k =>
      let c := rng.pos k
      if ∀ p ∈ players, ¬ ((c.1 - p.X) * (c.1 - p.X) + (c.2 - p.Y) * (c.2 - p.Y) <
          200 * 200) then
        let mob := NewMob (rng.ids k) mobType c.1 c.2 zoneName (rng.rarity k)
          (rng.jitter k) now
        let r := spawnBatch players zoneName mobType rng now i (k + 1)
        (mob :: r.1, r.2)
      else spawnBatch players zoneName mobType rng now i (k + 1)

/-- The `for spawned < need && attempts < maxAttempts` loop of
`spawnMobsIfNeeded` for one zone; the fuel argument is the number of attempts
still allowed, and the second component threads the random draw counter. -/
def spawnAttempts (players : List Player) (zoneName : String) (rng : SpawnRng)
    (now : ℝ) (need : ℕ) : ℕ → ℕ → ℕ → List Mob × ℕ
  | 0, _, k => ([], k)
  | Nat.succ fuel, spawned, k =>
      if spawned < need then
        let mobType := rng.mobType k
        let count := rng.batch k % 3 + 1
        let count := if need < spawned + count then need - spawned else count
        let b := spawnBatch players zoneName mobType rng now count (k + 1)
        let r := spawnAttempts players zoneName rng now need fuel
          (spawned + b.1.length) b.2
        (b.1 ++ r.1, r.2)
      else ([], k)

/-- The number of mobs of a given zone currently in the store. -/
def Game.mobCountIn (g : Game) (zoneName : String) : ℕ :=
  (g.mobs.filter (fun m => decide (m.Zone = zoneName))).length

/-- The body of the `for zoneName, zone := range g.zones` loop of
`spawnMobsIfNeeded`: a zone at or above the cap `maxMobsPerZone = 40` is
skipped, otherwise batches are attempted with `need * 5` attempts allowed. -/
def spawnZoneStep (g : Game) (rng : SpawnRng) (now : ℝ)
    (acc : List Mob × ℕ) (zp : String × Zone) : List Mob × ℕ :=
  let current := g.mobCountIn zp.1
  if current ≥ 40 then acc
  else
    let need := 40 - current
    let r := spawnAttempts g.players zp.1 rng now need (need * 5) 0 acc.2
    (acc.1 ++ r.1, r.2)

/-- `spawnMobsIfNeeded` — one spawn cycle: count the mobs of each zone, and for
every zone under the cap of 40 run randomized batches; the random draw counter
continues across zones. -/
def Game.spawnMobsIfNeeded (g : Game) (rng : SpawnRng) (now : ℝ) : Game :=
  { g with mobs := g.mobs ++ (g.zones.foldl (spawnZoneStep g rng now) ([], 0)).1 }

/-- The zone table built by `initZones`. -/
def initialZones : List (String × Zone) :=
  [("common", { MinX := 0, MaxX := 6000, MinY := 0, MaxY := 3000, Color := "#666666" }),
    ("uncommon", { MinX := 7000, MaxX := 13000, MinY := 0, MaxY := 3000, Color := "#00FF00" }),
    ("rare", { MinX := 14000, MaxX := 20000, MinY := 0, MaxY := 3000, Color := "#0088FF" }),
    ("epic", { MinX := 21000, MaxX := 27000, MinY := 0, MaxY := 3000, Color := "#FF00FF" }),
    ("legendary", { MinX := 28000, MaxX := 34000, MinY := 0, MaxY := 3000, Color := "#FFAA00" })]

/-- The portal table built by `initPortals`. -/
def initialPortals : List Portal :=
  [{ ID := "P1", X := 5800, Y := 1500, To := "P2", Zone := "common" },
    { ID := "P2", X := 7200, Y := 1500, To := "P1", Zone := "uncommon" },
    { ID := "P3", X := 12800, Y := 1500, To := "P4", Zone := "uncommon" },
    { ID := "P4", X := 14200, Y := 1500, To := "P3", Zone := "rare" },
    { ID := "P5", X := 19800, Y := 1500, To := "P6", Zone := "rare" },
    { ID := "P6", X := 21200, Y := 1500, To := "P5", Zone := "epic" },
    { ID := "P7", X := 26800, Y := 1500, To := "P8", Zone := "epic" },
    { ID := "P8", X := 28200, Y := 1500, To := "P7", Zone := "legendary" }]

/-- A `NewPlayer` value as built on connection accept, placed at a chosen
position. -/
def testPlayer (id : String) (x y : ℝ) : Player :=
  { ID := id, UserID := "u", Username := id, X := x, Y := y, Color := "#FF6B6B",
    Speed := 2.5, PortalCooldown := 0, CurrentZone := "common", Radius := 15,
    Health := 100, MaxHealth := 100, CollisionDamage := 25, LastHitTime := 0,
    Petals := [] }

end

/-- Smoke check: looking up an absent player makes `MovePlayer` a no-op. -/
example (g : Game) (h : g.player "nobody" = none) (dx dy now : ℝ) :
    g.MovePlayer "nobody" dx dy now = (g, []) := by
  unfold Game.MovePlayer
  rw [h]

/-- C2: while the portal cooldown has elapsed, ending a move within 100 units
of a portal moves the player to the linked portal, switches `CurrentZone` to
the destination zone and arms a fresh 10 second cooldown; while the cooldown
has not elapsed the portal check changes nothing about the player and emits no
notification. -/
theorem C2_portal_teleport_and_cooldown (g : Game) (player : Player) (now : ℝ)
    (pt dest : Portal) :
    (player.PortalCooldown ≤ now →
      portalHit player.X player.Y g.portals = some pt →
      lookupPortal g.portals pt.To = some dest →
      g.checkPortalInteraction player now =
        ({ player with
            X := dest.X
            Y := dest.Y
            CurrentZone := dest.Zone
            PortalCooldown := now + 10 },
          [Notif.portalTeleport pt.Zone dest.Zone]))
    ∧ (now < player.PortalCooldown →
        g.checkPortalInteraction player now = (player, [])) := by
  constructor
  · intro h1 h2 h3
    unfold Game.checkPortalInteraction
    rw [if_neg (not_lt.mpr h1), h2]
    dsimp only
    unfold Game.teleportPlayer
    rw [h3]
  · intro h
    unfold Game.checkPortalInteraction
    rw [if_pos h]

/-- A small initialized world used by the C2 witness: one player standing on
portal `P1`. -/
def gC2 : Game :=
  { players := [testPlayer "a" 5800 1500], mobs := [], portals := initialPortals,
    zones := initialZones, petalDrops := [] }

/-- The player of the C2 cooldown test: standing on `P1` but with a portal
cooldown until second 100. -/
def pCooling : Player := { testPlayer "b" 5800 1500 with PortalCooldown := 100 }

/-- Witness for C2: in the initialized world a player standing on `P1` with an
elapsed cooldown is teleported to `P2` in the `uncommon` zone with a cooldown
until second 60, and a player whose cooldown runs until second 100 is left
alone at second 49. -/
theorem C2_portal_teleport_and_cooldown_witness :
    ((testPlayer "a" 5800 1500).PortalCooldown ≤ 50
      ∧ portalHit (testPlayer "a" 5800 1500).X (testPlayer "a" 5800 1500).Y
          gC2.portals = some ⟨"P1", 5800, 1500, "P2", "common"⟩
      ∧ lookupPortal gC2.portals "P2" = some ⟨"P2", 7200, 1500, "P1", "uncommon"⟩
      ∧ gC2.checkPortalInteraction (testPlayer "a" 5800 1500) 50 =
        ({ testPlayer "a" 5800 1500 with
            X := 7200
            Y := 1500
            CurrentZone := "uncommon"
            PortalCooldown := 50 + 10 },
          [Notif.portalTeleport "common" "uncommon"]))
    ∧ ((49 : ℝ) < pCooling.PortalCooldown
      ∧ gC2.checkPortalInteraction pCooling 49 = (pCooling, [])) := by
  have hhit : portalHit (testPlayer "a" 5800 1500).X (testPlayer "a" 5800 1500).Y
      gC2.portals = some ⟨"P1", 5800, 1500, "P2", "common"⟩ := by
    show portalHit (testPlayer "a" 5800 1500).X (testPlayer "a" 5800 1500).Y
      initialPortals = some ⟨"P1", 5800, 1500, "P2", "common"⟩
    unfold initialPortals testPlayer
    rw [portalHit]
    norm_num
  have hdest : lookupPortal gC2.portals "P2" =
      some ⟨"P2", 7200, 1500, "P1", "uncommon"⟩ := by
    show lookupPortal initialPortals "P2" = some ⟨"P2", 7200, 1500, "P1", "uncommon"⟩
    unfold lookupPortal initialPortals
    rw [List.find?_cons_of_neg _ (by decide), List.find?_cons_of_pos _ (by decide)]
  have hcool : (testPlayer "a" 5800 1500).PortalCooldown ≤ 50 := by
    unfold testPlayer; norm_num
  have hcold : (49 : ℝ) < pCooling.PortalCooldown := by
    unfold pCooling testPlayer; norm_num
  refine ⟨⟨hcool, hhit, hdest, ?_⟩, hcold, ?_⟩
  · exact (C2_portal_teleport_and_cooldown gC2 (testPlayer "a" 5800 1500) 50
      ⟨"P1", 5800, 1500, "P2", "common"⟩ ⟨"P2", 7200, 1500, "P1", "uncommon"⟩).1
      hcool hhit hdest
  · exact (C2_portal_teleport_and_cooldown gC2 pCooling 49
      ⟨"P1", 5800, 1500, "P2", "common"⟩ ⟨"P1", 5800, 1500, "P2", "common"⟩).2 hcold

/-- C10: a respawn request for an unknown id or for a living player leaves the
world unchanged and sends nothing; a respawn request for a dead player moves it
to the freshly computed safe spawn position, restores `MaxHealth`, and notifies
it. -/
theorem C10_respawn_only_dead (g : Game) (playerID : String) (now : ℝ)
    (randPos : ℕ → ℝ × ℝ) :
    (g.player playerID = none → g.RespawnPlayer playerID now randPos = (g, []))
    ∧ (∀ p, g.player playerID = some p → p.IsAlive →
        g.RespawnPlayer playerID now randPos = (g, []))
    ∧ (∀ p, g.player playerID = some p → ¬ p.IsAlive →
        g.RespawnPlayer playerID now randPos =
          (g.setPlayer
              { p with
                  Health := p.MaxHealth
                  X := (g.findSafeSpawnPosition "common" playerID randPos).1
                  Y := (g.findSafeSpawnPosition "common" playerID randPos).2
                  LastHitTime := now },
            [Notif.playerRespawned p.MaxHealth
              (g.findSafeSpawnPosition "common" playerID randPos).1
              (g.findSafeSpawnPosition "common" playerID randPos).2
              p.CurrentZone])) := by
  refine ⟨?_, ?_, ?_⟩
  · intro h
    unfold Game.RespawnPlayer
    rw [h]
  · intro p hp halive
    unfold Game.RespawnPlayer
    rw [hp]
    dsimp only
    rw [if_pos halive]
  · intro p hp hdead
    unfold Game.RespawnPlayer
    rw [hp]
    dsimp only
    rw [if_neg hdead]
    unfold Player.Respawn
    rfl

/-- The world of the C10 witness: a dead player in `common` and a living one. -/
def gC10 : Game :=
  { players := [{ testPlayer "d" 400 400 with Health := 0 }, testPlayer "a" 900 900],
    mobs := [], portals := initialPortals, zones := initialZones, petalDrops := [] }

/-- Witness for C10: in `gC10` the respawn of the unknown id `z` and of the
living player `a` are no-ops, the fresh spawn position computed for `d` from
the given random stream is `(300, 200)`, and respawning the dead player `d`
moves it there with full health. -/
theorem C10_respawn_only_dead_witness :
    (gC10.player "z" = none
      ∧ gC10.RespawnPlayer "z" 7 (fun _ => (300, 200)) = (gC10, []))
    ∧ (gC10.player "a" = some (testPlayer "a" 900 900)
      ∧ (testPlayer "a" 900 900).IsAlive
      ∧ gC10.RespawnPlayer "a" 7 (fun _ => (300, 200)) = (gC10, []))
    ∧ (gC10.player "d" = some { testPlayer "d" 400 400 with Health := 0 }
      ∧ ¬ ({ testPlayer "d" 400 400 with Health := 0 } : Player).IsAlive
      ∧ gC10.findSafeSpawnPosition "common" "d" (fun _ => (300, 200)) = (300, 200)
      ∧ gC10.RespawnPlayer "d" 7 (fun _ => (300, 200)) =
        (gC10.setPlayer
            { testPlayer "d" 400 400 with
                Health := (testPlayer "d" 400 400).MaxHealth
                X := (gC10.findSafeSpawnPosition "common" "d" (fun _ => (300, 200))).1
                Y := (gC10.findSafeSpawnPosition "common" "d" (fun _ => (300, 200))).2
                LastHitTime := 7 },
          [Notif.playerRespawned (testPlayer "d" 400 400).MaxHealth
            (gC10.findSafeSpawnPosition "common" "d" (fun _ => (300, 200))).1
            (gC10.findSafeSpawnPosition "common" "d" (fun _ => (300, 200))).2
            (testPlayer "d" 400 400).CurrentZone])) := by
  have hz : gC10.player "z" = none := by
    unfold gC10 Game.player testPlayer
    rw [List.find?_cons_of_neg _ (by decide), List.find?_cons_of_neg _ (by decide)]
    rfl
  have ha : gC10.player "a" = some (testPlayer "a" 900 900) := by
    unfold gC10 Game.player testPlayer
    rw [List.find?_cons_of_neg _ (by decide), List.find?_cons_of_pos _ (by decide)]
  have hd : gC10.player "d" = some { testPlayer "d" 400 400 with Health := 0 } := by
    unfold gC10 Game.player testPlayer
    rw [List.find?_cons_of_pos _ (by decide)]
  have haalive : (testPlayer "a" 900 900).IsAlive := by
    unfold Player.IsAlive testPlayer; norm_num
  have hddead : ¬ ({ testPlayer "d" 400 400 with Health := 0 } : Player).IsAlive := by
    unfold Player.IsAlive testPlayer; norm_num
  have hspawn : gC10.findSafeSpawnPosition "common" "d" (fun _ => (300, 200)) =
      (300, 200) := by
    unfold Game.findSafeSpawnPosition
    have hzone : gC10.zone "common" =
        some { MinX := 0, MaxX := 6000, MinY := 0, MaxY := 3000, Color := "#666666" } := by
      unfold gC10 Game.zone initialZones
      rw [List.find?_cons_of_pos _ (by decide)]
      rfl
    rw [hzone]
    dsimp only
    rw [spawnTryAt]
    rw [if_pos]
    intro p hp
    unfold gC10 testPlayer at hp
    rcases List.mem_cons.mp hp with h | h
    · right
      rw [h]
      norm_num
    · rcases List.mem_cons.mp h with h2 | h2
      · right
        rw [h2]
        norm_num
      · exact absurd h2 (List.not_mem_nil p)
  refine ⟨⟨hz, ?_⟩, ⟨ha, haalive, ?_⟩, ⟨hd, hddead, hspawn, ?_⟩⟩
  · exact (C10_respawn_only_dead gC10 "z" 7 (fun _ => (300, 200))).1 hz
  · exact (C10_respawn_only_dead gC10 "a" 7 (fun _ => (300, 200))).2.1
      (testPlayer "a" 900 900) ha haalive
  · exact (C10_respawn_only_dead gC10 "d" 7 (fun _ => (300, 200))).2.2
      { testPlayer "d" 400 400 with Health := 0 } hd hddead

/-- C9: after a petal tick, every active petal is stored exactly its orbit
radius away from the current position of its owner (the tick writes
`owner position + radius * (cos angle, sin angle)` and does not move the
owner). -/
theorem C9_petal_orbit_radius (g : Game)
    (hrad : ∀ p ∈ g.players, ∀ petal ∈ p.Petals, 0 ≤ petal.Radius) :
    ∀ p2 ∈ g.updatePetals.players, ∀ petal ∈ p2.Petals, petal.IsActive = true →
      Real.sqrt ((petal.X - p2.X) * (petal.X - p2.X) +
          (petal.Y - p2.Y) * (petal.Y - p2.Y)) = petal.Radius := by
  intro p2 hp2 petal hpetal hact
  unfold Game.updatePetals at hp2
  dsimp only at hp2
  obtain ⟨p, hp, rfl⟩ := List.mem_map.mp hp2
  dsimp only at hpetal
  obtain ⟨pet0, hpet0, rfl⟩ := List.mem_map.mp hpetal
  by_cases hA : pet0.IsActive
  · rw [if_pos hA]
    rw [if_pos hA] at hact
    unfold Petal.UpdatePosition
    dsimp only
    have h0 : 0 ≤ pet0.Radius := hrad p hp pet0 hpet0
    set a := if pet0.Angle + pet0.Speed * 0.1 > 2 * Real.pi then
      pet0.Angle + pet0.Speed * 0.1 - 2 * Real.pi else pet0.Angle + pet0.Speed * 0.1 with ha
    have hsum : (p.X + pet0.Radius * Real.cos a - p.X) *
          (p.X + pet0.Radius * Real.cos a - p.X) +
        (p.Y + pet0.Radius * Real.sin a - p.Y) *
          (p.Y + pet0.Radius * Real.sin a - p.Y) = pet0.Radius ^ 2 := by
      have htrig := Real.cos_sq_add_sin_sq a
      nlinarith [htrig]
    rw [hsum, Real.sqrt_sq h0]
  · rw [if_neg hA]
    rw [if_neg hA] at hact
    exact absurd hact hA

/-- The world of the C9 witness: one player at `(100, 200)` owning one active
wolf petal. -/
def gC9 : Game :=
  { players := [{ testPlayer "a" 100 200 with
      Petals := [NewPetal PetalType.wolf "a" "pw" 0] }],
    mobs := [], portals := initialPortals, zones := initialZones, petalDrops := [] }

/-- Witness for C9: in `gC9` every petal radius is nonnegative, and after the
petal tick every active petal sits exactly its radius away from its owner. -/
theorem C9_petal_orbit_radius_witness :
    (∀ p ∈ gC9.players, ∀ petal ∈ p.Petals, 0 ≤ petal.Radius)
    ∧ (∀ p2 ∈ gC9.updatePetals.players, ∀ petal ∈ p2.Petals, petal.IsActive = true →
        Real.sqrt ((petal.X - p2.X) * (petal.X - p2.X) +
            (petal.Y - p2.Y) * (petal.Y - p2.Y)) = petal.Radius) := by
  have hrad : ∀ p ∈ gC9.players, ∀ petal ∈ p.Petals, 0 ≤ petal.Radius := by
    intro p hp petal hpetal
    unfold gC9 testPlayer at hp
    rcases List.mem_cons.mp hp with h | h
    · subst h
      rcases List.mem_cons.mp hpetal with h2 | h2
      · subst h2
        unfold NewPetal PetalConfig
        norm_num
      · exact absurd h2 (List.not_mem_nil petal)
    · exact absurd h (List.not_mem_nil p)
  exact ⟨hrad, C9_petal_orbit_radius gC9 hrad⟩

/-- The world of the C4 evaluation: a single dead player in the middle of the
`common` zone, far from every portal. -/
def gC4 : Game :=
  { players := [{ testPlayer "a" 3000 1500 with Health := 0 }],
    mobs := [], portals := [], zones := initialZones, petalDrops := [] }

/-- C4 fails on the code: `MovePlayer` never checks `IsAlive`, so a move
command for a player whose health is zero still displaces it — here the dead
player at `(3000, 1500)` moves to `(3002.5, 1500)` — although the comment in
`handlePlayerDeath` states that a dead player cannot move until it respawns. -/
theorem C4_dead_player_still_moves :
    ¬ ({ testPlayer "a" 3000 1500 with Health := 0 } : Player).IsAlive
    ∧ (gC4.MovePlayer "a" 1 0 1000).1.players =
      [{ testPlayer "a" 3000 1500 with Health := 0, X := 3002.5 }] := by
  constructor
  · unfold Player.IsAlive testPlayer
    norm_num
  · have hfind : gC4.player "a" = some { testPlayer "a" 3000 1500 with Health := 0 } := by
      unfold gC4 Game.player testPlayer
      rw [List.find?_cons_of_pos _ (by decide)]
    have hzone : gC4.zone "common" =
        some { MinX := 0, MaxX := 6000, MinY := 0, MaxY := 3000, Color := "#666666" } := by
      unfold gC4 Game.zone initialZones
      rw [List.find?_cons_of_pos _ (by decide)]
      rfl
    have hsqrt : Real.sqrt ((1 : ℝ) * 1 + 0 * 0) = 1 := by
      rw [show ((1 : ℝ) * 1 + 0 * 0) = 1 by norm_num, Real.sqrt_one]
    unfold Game.MovePlayer
    rw [hfind]
    dsimp only
    rw [hsqrt]
    norm_num [Game.constrainToZone, Game.constrainToZone.clamp,
      Game.checkPortalInteraction, portalHit,
      avoidOtherPlayers, avoidStep, List.foldl, Game.setPlayer, gC4, testPlayer,
      Game.zone, initialZones, List.find?]

/-- If no other player of the list is close enough to the candidate position to
trigger the soft avoidance, the avoidance loop returns the position unchanged. -/
theorem avoidOtherPlayers_eq_self (player : Player) (pos : ℝ × ℝ) (l : List Player)
    (h : ∀ q ∈ l, q.ID = player.ID ∨
      ¬ ((pos.1 - q.X) * (pos.1 - q.X) + (pos.2 - q.Y) * (pos.2 - q.Y) <
        (player.Radius + q.Radius + CollisionBuffer) *
          (player.Radius + q.Radius + CollisionBuffer))) :
    avoidOtherPlayers l player pos = pos := by
  induction l with
  | nil => rfl
  | cons q rest ih =>
      have hstep : avoidStep player pos q = pos := by
        unfold avoidStep
        by_cases hid : q.ID = player.ID
        · rw [if_pos hid]
        · rw [if_neg hid]
          rcases h q (List.mem_cons_self q rest) with hq | hq
          · exact absurd hq hid
          · dsimp only
            rw [if_neg hq]
      show (q :: rest).foldl (avoidStep player) pos = pos
      rw [List.foldl_cons, hstep]
      exact ih fun q2 hq2 => h q2 (List.mem_cons_of_mem q hq2)

/-- If every portal of the list is farther than 100 units from the point, the
portal scan finds nothing. -/
theorem portalHit_eq_none (x y : ℝ) (l : List Portal)
    (h : ∀ po ∈ l, ¬ ((x - po.X) * (x - po.X) + (y - po.Y) * (y - po.Y) ≤
      100 * 100)) :
    portalHit x y l = none := by
  induction l with
  | nil => rfl
  | cons po rest ih =>
      unfold portalHit
      rw [if_neg (h po (List.mem_cons_self po rest))]
      exact ih fun q hq => h q (List.mem_cons_of_mem po hq)

/-- The world of the C7 counterexample: one player standing exactly on portal
`P1` with an elapsed portal cooldown. -/
def gC7 : Game :=
  { players := [testPlayer "a" 5800 1500], mobs := [], portals := initialPortals,
    zones := initialZones, petalDrops := [] }

/-- C7 fails on the code: `MovePlayer` has no zero-vector early return, so a
move command with intent `(0, 0)` still runs the whole pipeline — here it
teleports the player standing on `P1` to `P2`, rewriting its position, zone
and cooldown and emitting a portal notification. -/
theorem C7_counterexample :
    (gC7.MovePlayer "a" 0 0 50).2 = [Notif.portalTeleport "common" "uncommon"]
    ∧ (gC7.MovePlayer "a" 0 0 50).1.players =
      [{ testPlayer "a" 5800 1500 with
          X := 7200
          Y := 1500
          CurrentZone := "uncommon"
          PortalCooldown := 60 }] := by
  have hfind : gC7.player "a" = some (testPlayer "a" 5800 1500) := by
    unfold gC7 Game.player testPlayer
    rw [List.find?_cons_of_pos _ (by decide)]
  have hsqrt : Real.sqrt ((0 : ℝ) * 0 + 0 * 0) = 0 := by
    rw [show ((0 : ℝ) * 0 + 0 * 0) = 0 by norm_num, Real.sqrt_zero]
  have hstr : (decide ("P1" = "P2")) = false := by decide
  constructor
  · unfold Game.MovePlayer
    rw [hfind]
    dsimp only
    rw [hsqrt]
    norm_num [Game.constrainToZone, Game.constrainToZone.clamp,
      Game.checkPortalInteraction, portalHit, Game.teleportPlayer, lookupPortal,
      avoidOtherPlayers, avoidStep, List.foldl, Game.setPlayer, gC7, testPlayer,
      Game.zone, initialZones, initialPortals, List.find?, hstr]
  · unfold Game.MovePlayer
    rw [hfind]
    dsimp only
    rw [hsqrt]
    norm_num [Game.constrainToZone, Game.constrainToZone.clamp,
      Game.checkPortalInteraction, portalHit, Game.teleportPlayer, lookupPortal,
      avoidOtherPlayers, avoidStep, List.foldl, Game.setPlayer, gC7, testPlayer,
      Game.zone, initialZones, initialPortals, List.find?, hstr]

/-- C7 amended: a move command for an unknown player id changes no state and
emits nothing; a zero-vector move command is not skipped but still runs the
movement pipeline, so it is a no-op only when the pipeline itself does nothing:
the player is inside its (existing) zone rectangle, no other player is within
soft-avoidance range, and the portal check stays silent (cooldown running or no
portal within 100 units).  A zero-vector command can otherwise clamp, push or
teleport the player, as the counterexample shows. -/
theorem C7_no_ops (g : Game) (pid : String) (dx dy now : ℝ) (p : Player) (z : Zone) :
    (g.player pid = none → g.MovePlayer pid dx dy now = (g, []))
    ∧ (g.player pid = some p →
        g.zone p.CurrentZone = some z →
        z.MinX ≤ p.X → p.X ≤ z.MaxX → z.MinY ≤ p.Y → p.Y ≤ z.MaxY →
        (∀ q ∈ g.players, q.ID = p.ID → q = p) →
        (∀ q ∈ g.players, q.ID = p.ID ∨
          ¬ ((p.X - q.X) * (p.X - q.X) + (p.Y - q.Y) * (p.Y - q.Y) <
            (p.Radius + q.Radius + CollisionBuffer) *
              (p.Radius + q.Radius + CollisionBuffer))) →
        (now < p.PortalCooldown ∨ portalHit p.X p.Y g.portals = none) →
        g.MovePlayer pid 0 0 now = (g, [])) := by
  constructor
  · intro h
    unfold Game.MovePlayer
    rw [h]
  · intro hp hz hx1 hx2 hy1 hy2 hid hfar hport
    unfold Game.MovePlayer
    rw [hp]
    dsimp only
    have hsqrt : Real.sqrt ((0 : ℝ) * 0 + 0 * 0) = 0 := by
      rw [show ((0 : ℝ) * 0 + 0 * 0) = 0 by norm_num, Real.sqrt_zero]
    rw [hsqrt]
    rw [if_neg (lt_irrefl (0 : ℝ))]
    simp only [zero_mul, add_zero]
    have hclamp : g.constrainToZone p p.X p.Y = (p.CurrentZone, p.X, p.Y) := by
      unfold Game.constrainToZone
      rw [hz]
      dsimp only [Game.constrainToZone.clamp]
      rw [if_neg (not_lt.mpr hx1), if_neg (not_lt.mpr hx2),
        if_neg (not_lt.mpr hy1), if_neg (not_lt.mpr hy2)]
    rw [hclamp]
    dsimp only
    have hp1 : ({ p with CurrentZone := p.CurrentZone } : Player) = p := rfl
    rw [hp1]
    rw [avoidOtherPlayers_eq_self p (p.X, p.Y) g.players hfar]
    have hp2 : ({ p with X := p.X, Y := p.Y } : Player) = p := rfl
    rw [hp2]
    have hsilent : g.checkPortalInteraction p now = (p, []) := by
      unfold Game.checkPortalInteraction
      rcases hport with h | h
      · rw [if_pos h]
      · by_cases hcool : now < p.PortalCooldown
        · rw [if_pos hcool]
        · rw [if_neg hcool, h]
    rw [hsilent]
    unfold Game.setPlayer
    have hmap : g.players.map (fun q => if q.ID = p.ID then p else q) = g.players := by
      rw [show g.players.map (fun q => if q.ID = p.ID then p else q) =
          g.players.map id from List.map_congr_left ?_, List.map_id]
      intro q hq
      by_cases hqid : q.ID = p.ID
      · rw [if_pos hqid, id, hid q hq hqid]
      · rw [if_neg hqid, id]
    rw [hmap]

/-- Witness for C7: in a one-player world with the player inside `common` at
`(3000, 1500)` and no portal nearby, the unknown id `z` is a no-op, and the
zero-vector command for the known player is a no-op. -/
theorem C7_no_ops_witness :
    (gC4.player "z" = none
      ∧ gC4.MovePlayer "z" 1 0 5 = (gC4, []))
    ∧ (gC4.player "a" = some { testPlayer "a" 3000 1500 with Health := 0 }
      ∧ gC4.MovePlayer "a" 0 0 5 = (gC4, [])) := by
  have hfind : gC4.player "a" = some { testPlayer "a" 3000 1500 with Health := 0 } := by
    unfold gC4 Game.player testPlayer
    rw [List.find?_cons_of_pos _ (by decide)]
  have hnone : gC4.player "z" = none := by
    unfold gC4 Game.player testPlayer
    rw [List.find?_cons_of_neg _ (by decide)]
    rfl
  have hzone : gC4.zone "common" =
      some { MinX := 0, MaxX := 6000, MinY := 0, MaxY := 3000, Color := "#666666" } := by
    unfold gC4 Game.zone initialZones
    rw [List.find?_cons_of_pos _ (by decide)]
    rfl
  refine ⟨⟨hnone, ?_⟩, hfind, ?_⟩
  · exact (C7_no_ops gC4 "z" 1 0 5 (testPlayer "a" 0 0)
      { MinX := 0, MaxX := 6000, MinY := 0, MaxY := 3000, Color := "#666666" }).1 hnone
  · refine (C7_no_ops gC4 "a" 0 0 5 { testPlayer "a" 3000 1500 with Health := 0 }
      { MinX := 0, MaxX := 6000, MinY := 0, MaxY := 3000, Color := "#666666" }).2
      hfind hzone ?_ ?_ ?_ ?_ ?_ ?_ ?_
    · unfold testPlayer; norm_num
    · unfold testPlayer; norm_num
    · unfold testPlayer; norm_num
    · unfold testPlayer; norm_num
    · intro q hq hqid
      unfold gC4 at hq
      rcases List.mem_cons.mp hq with h | h
      · exact h
      · exact absurd h (List.not_mem_nil q)
    · intro q hq
      unfold gC4 at hq
      rcases List.mem_cons.mp hq with h | h
      · left
        rw [h]
      · exact absurd h (List.not_mem_nil q)
    · right
      unfold gC4
      rfl

/-- When the current zone of the player is found, `constrainToZone` keeps the
zone name and clamps the candidate point into the zone rectangle. -/
theorem constrainToZone_found (g : Game) (p : Player) (x y : ℝ) (z : Zone)
    (hz : g.zone p.CurrentZone = some z)
    (hwfx : z.MinX ≤ z.MaxX) (hwfy : z.MinY ≤ z.MaxY) :
    ∃ cx cy, g.constrainToZone p x y = (p.CurrentZone, cx, cy)
      ∧ z.MinX ≤ cx ∧ cx ≤ z.MaxX ∧ z.MinY ≤ cy ∧ cy ≤ z.MaxY := by
  unfold Game.constrainToZone
  rw [hz]
  dsimp only [Game.constrainToZone.clamp]
  refine ⟨_, _, rfl, ?_, ?_, ?_, ?_⟩
  · split_ifs with h1 h2 h3 <;> linarith
  · split_ifs with h1 h2 h3 <;> linarith
  · split_ifs with h1 h2 h3 <;> linarith
  · split_ifs with h1 h2 h3 <;> linarith

/-- C1 amended: when the move command does not trigger a portal teleport and no
other player is within soft-avoidance range of the clamped position, the player
ends the command inside the rectangle of its unchanged `CurrentZone`.  (The
avoidance blend runs after the clamp and can push the position outside the
rectangle, as the counterexample shows, so the claim holds only away from other
players.) -/
theorem C1_move_stays_in_zone (g : Game) (pid : String) (dx dy now : ℝ)
    (p : Player) (z : Zone) :
    g.player pid = some p →
    g.zone p.CurrentZone = some z →
    z.MinX ≤ z.MaxX → z.MinY ≤ z.MaxY →
    (let length := Real.sqrt (dx * dx + dy * dy)
     let ndx := if length > 0 then dx / length else dx
     let ndy := if length > 0 then dy / length else dy
     let c := g.constrainToZone p (p.X + ndx * p.Speed) (p.Y + ndy * p.Speed)
     (∀ q ∈ g.players, q.ID = p.ID ∨
        ¬ ((c.2.1 - q.X) * (c.2.1 - q.X) + (c.2.2 - q.Y) * (c.2.2 - q.Y) <
          (p.Radius + q.Radius + CollisionBuffer) *
            (p.Radius + q.Radius + CollisionBuffer))) →
     (now < p.PortalCooldown ∨ portalHit c.2.1 c.2.2 g.portals = none) →
     ∀ q ∈ (g.MovePlayer pid dx dy now).1.players, q.ID = pid →
       q.CurrentZone = p.CurrentZone
         ∧ z.MinX ≤ q.X ∧ q.X ≤ z.MaxX ∧ z.MinY ≤ q.Y ∧ q.Y ≤ z.MaxY) := by
  intro hp hz hwfx hwfy
  intro length ndx ndy c hfar hport q hq hqid
  have hpid : p.ID = pid := by
    have := List.find?_some hp
    exact of_decide_eq_true this
  obtain ⟨cx, cy, hc, hcx1, hcx2, hcy1, hcy2⟩ :=
    constrainToZone_found g p (p.X + ndx * p.Speed) (p.Y + ndy * p.Speed)
      z hz hwfx hwfy
  have hcC : c = (p.CurrentZone, cx, cy) := hc
  rw [hcC] at hfar hport
  unfold Game.MovePlayer at hq
  rw [hp] at hq
  dsimp only at hq
  rw [hc] at hq
  dsimp only at hq
  have hp1 : ({ p with CurrentZone := p.CurrentZone } : Player) = p := rfl
  rw [hp1] at hq
  rw [avoidOtherPlayers_eq_self p (cx, cy) g.players hfar] at hq
  have hsilent : g.checkPortalInteraction { p with X := cx, Y := cy } now =
      ({ p with X := cx, Y := cy }, []) := by
    unfold Game.checkPortalInteraction
    rcases hport with h | h
    · rw [if_pos h]
    · by_cases hcool : now < p.PortalCooldown
      · rw [if_pos hcool]
      · rw [if_neg hcool]
        dsimp only
        rw [h]
  rw [hsilent] at hq
  unfold Game.setPlayer at hq
  dsimp only at hq
  obtain ⟨orig, horig, rfl⟩ := List.mem_map.mp hq
  by_cases ho : orig.ID = p.ID
  · rw [if_pos ho]
    exact ⟨rfl, hcx1, hcx2, hcy1, hcy2⟩
  · rw [if_neg ho] at hqid ⊢
    exact absurd (hqid.trans hpid.symm) ho

/-- The world of the C1 counterexample: player `a` on the western border of
`common` at `(0, 100)` and player `b` overlapping it at `(10, 100)`. -/
def gC1 : Game :=
  { players := [testPlayer "a" 0 100, testPlayer "b" 10 100], mobs := [],
    portals := [], zones := initialZones, petalDrops := [] }

/-- C1 fails on the code: the soft avoidance runs after the zone clamp, so a
move command can end with the player outside the rectangle of its
`CurrentZone` without any portal teleport.  Here player `a` on the western
border is pushed to `x = -7.5 < MinX = 0` by the overlap with player `b`. -/
theorem C1_counterexample :
    (gC1.MovePlayer "a" (-1) 0 5).2 = []
    ∧ (gC1.MovePlayer "a" (-1) 0 5).1.players =
      [{ testPlayer "a" 0 100 with X := -(15 / 2) }, testPlayer "b" 10 100]
    ∧ gC1.zone "common" =
      some { MinX := 0, MaxX := 6000, MinY := 0, MaxY := 3000, Color := "#666666" }
    ∧ ({ testPlayer "a" 0 100 with X := -(15 / 2) } : Player).CurrentZone = "common"
    ∧ ¬ ((0 : ℝ) ≤ ({ testPlayer "a" 0 100 with X := -(15 / 2) } : Player).X) := by
  have hfind : gC1.player "a" = some (testPlayer "a" 0 100) := by
    unfold gC1 Game.player testPlayer
    rw [List.find?_cons_of_pos _ (by decide)]
  have hs1 : Real.sqrt 1 = 1 := Real.sqrt_one
  have hs100 : Real.sqrt 100 = 10 := by
    rw [show (100 : ℝ) = 10 ^ 2 by norm_num, Real.sqrt_sq (by norm_num)]
  have hba : (("b" : String) = "a") = False := eq_false (by decide)
  have hab : (("a" : String) = "b") = False := eq_false (by decide)
  refine ⟨?_, ?_, ?_, by unfold testPlayer; rfl, by unfold testPlayer; norm_num⟩
  · unfold Game.MovePlayer
    rw [hfind]
    dsimp only
    norm_num [Game.constrainToZone, Game.constrainToZone.clamp,
      Game.checkPortalInteraction, portalHit, avoidOtherPlayers, avoidStep,
      cosAtan2, sinAtan2, List.foldl, Game.setPlayer, gC1, testPlayer,
      Game.zone, initialZones, List.find?, hs1, hs100, hba, hab, CollisionBuffer]
  · unfold Game.MovePlayer
    rw [hfind]
    dsimp only
    norm_num [Game.constrainToZone, Game.constrainToZone.clamp,
      Game.checkPortalInteraction, portalHit, avoidOtherPlayers, avoidStep,
      cosAtan2, sinAtan2, List.foldl, Game.setPlayer, gC1, testPlayer,
      Game.zone, initialZones, List.find?, hs1, hs100, hba, hab, CollisionBuffer]
  · unfold gC1 Game.zone initialZones
    rw [List.find?_cons_of_pos _ (by decide)]
    rfl

/-- Witness for C1 amended: in the one-player world `gC4` (player inside
`common` at `(3000, 1500)`, no portal), the command `(1, 0)` ends with the
player inside the `common` rectangle and its zone unchanged. -/
theorem C1_move_stays_in_zone_witness :
    (gC4.player "a" = some { testPlayer "a" 3000 1500 with Health := 0 })
    ∧ (∀ q ∈ (gC4.MovePlayer "a" 1 0 5).1.players, q.ID = "a" →
        q.CurrentZone = ({ testPlayer "a" 3000 1500 with Health := 0 } : Player).CurrentZone
          ∧ (0 : ℝ) ≤ q.X ∧ q.X ≤ 6000 ∧ (0 : ℝ) ≤ q.Y ∧ q.Y ≤ 3000) := by
  have hfind : gC4.player "a" = some { testPlayer "a" 3000 1500 with Health := 0 } := by
    unfold gC4 Game.player testPlayer
    rw [List.find?_cons_of_pos _ (by decide)]
  have hzone : gC4.zone ({ testPlayer "a" 3000 1500 with Health := 0 } : Player).CurrentZone =
      some { MinX := 0, MaxX := 6000, MinY := 0, MaxY := 3000, Color := "#666666" } := by
    unfold gC4 Game.zone initialZones testPlayer
    rw [List.find?_cons_of_pos _ (by decide)]
    rfl
  refine ⟨hfind, ?_⟩
  have := C1_move_stays_in_zone gC4 "a" 1 0 5
    { testPlayer "a" 3000 1500 with Health := 0 }
    { MinX := 0, MaxX := 6000, MinY := 0, MaxY := 3000, Color := "#666666" }
    hfind hzone (by norm_num) (by norm_num)
    (by
      intro q hq
      left
      unfold gC4 at hq
      rcases List.mem_cons.mp hq with h | h
      · rw [h]
      · exact absurd h (List.not_mem_nil q))
    (by
      right
      unfold gC4
      rfl)
  exact this

/-- Displacing a point by at most `s` keeps it at least `m` away from anything
that was at least `m + s` away (squared form of the triangle inequality). -/
theorem shift_sq_lower (u v wx wy s m : ℝ) (hs : 0 ≤ s) (hm : 0 ≤ m)
    (hd : u * u + v * v ≤ s * s) (hfar : (m + s) * (m + s) ≤ wx * wx + wy * wy) :
    m * m ≤ (wx + u) * (wx + u) + (wy + v) * (wy + v) := by
  have hCS : (u * wx + v * wy) * (u * wx + v * wy) ≤
      (u * u + v * v) * (wx * wx + wy * wy) := by
    nlinarith [sq_nonneg (u * wy - v * wx)]
  have huu : 0 ≤ s * s - (u * u + v * v) := by linarith
  have hvv : 0 ≤ (wx * wx + wy * wy) - (m + s) * (m + s) := by linarith
  have hpos : 0 ≤ (u * u + v * v) + (wx * wx + wy * wy) - m * m := by
    nlinarith [sq_nonneg u, sq_nonneg v]
  have hAB : ((u * u + v * v) + (wx * wx + wy * wy) - m * m) *
      ((u * u + v * v) + (wx * wx + wy * wy) - m * m) ≥
      4 * ((u * u + v * v) * (wx * wx + wy * wy)) := by
    nlinarith [sq_nonneg ((wx * wx + wy * wy - (m + s) * (m + s)) - (s * s - (u * u + v * v))),
      mul_nonneg (mul_nonneg hs hm) hvv,
      mul_nonneg (mul_nonneg huu hm) (by linarith : (0:ℝ) ≤ m + s),
      mul_nonneg huu hvv]
  have hABt : ((u * u + v * v) + (wx * wx + wy * wy) - m * m) *
      ((u * u + v * v) + (wx * wx + wy * wy) - m * m) ≥
      4 * ((u * wx + v * wy) * (u * wx + v * wy)) := by nlinarith [hAB, hCS]
  nlinarith [hABt, hpos]

/-- Strict variant of `shift_sq_lower`. -/
theorem shift_sq_lower_strict (u v wx wy s m : ℝ) (hs : 0 ≤ s) (hm : 0 ≤ m)
    (hd : u * u + v * v ≤ s * s) (hfar : (m + s) * (m + s) < wx * wx + wy * wy) :
    m * m < (wx + u) * (wx + u) + (wy + v) * (wy + v) := by
  have hCS : (u * wx + v * wy) * (u * wx + v * wy) ≤
      (u * u + v * v) * (wx * wx + wy * wy) := by
    nlinarith [sq_nonneg (u * wy - v * wx)]
  have huu : 0 ≤ s * s - (u * u + v * v) := by linarith
  have hvv : 0 < (wx * wx + wy * wy) - (m + s) * (m + s) := by linarith
  have hpos : 0 < (u * u + v * v) + (wx * wx + wy * wy) - m * m := by
    nlinarith [sq_nonneg u, sq_nonneg v]
  have hAB : ((u * u + v * v) + (wx * wx + wy * wy) - m * m) *
      ((u * u + v * v) + (wx * wx + wy * wy) - m * m) >
      4 * ((u * u + v * v) * (wx * wx + wy * wy)) := by
    nlinarith [sq_nonneg ((wx * wx + wy * wy - (m + s) * (m + s)) - (s * s - (u * u + v * v))),
      mul_nonneg (mul_nonneg hs hm) (le_of_lt hvv),
      mul_nonneg (mul_nonneg huu hm) (by linarith : (0:ℝ) ≤ m + s),
      mul_nonneg huu (le_of_lt hvv),
      mul_pos (by nlinarith [sq_nonneg (u*u+v*v-(wx*wx+wy*wy))] :
        (0:ℝ) < (wx * wx + wy * wy) - (m + s) * (m + s) + (s * s - (u*u+v*v))) hvv]
  have hABt : ((u * u + v * v) + (wx * wx + wy * wy) - m * m) *
      ((u * u + v * v) + (wx * wx + wy * wy) - m * m) >
      4 * ((u * wx + v * wy) * (u * wx + v * wy)) := by nlinarith [hAB, hCS]
  nlinarith [hABt, hpos]

/-- When the candidate point already lies in the zone rectangle,
`constrainToZone` is the identity on it. -/
theorem constrainToZone_id (g : Game) (p : Player) (x y : ℝ) (z : Zone)
    (hz : g.zone p.CurrentZone = some z)
    (hx1 : z.MinX ≤ x) (hx2 : x ≤ z.MaxX) (hy1 : z.MinY ≤ y) (hy2 : y ≤ z.MaxY) :
    g.constrainToZone p x y = (p.CurrentZone, x, y) := by
  unfold Game.constrainToZone
  rw [hz]
  dsimp only [Game.constrainToZone.clamp]
  rw [if_neg (not_lt.mpr hx1), if_neg (not_lt.mpr hx2),
    if_neg (not_lt.mpr hy1), if_neg (not_lt.mpr hy2)]

/-- A move command issued far from the zone borders, from every other player
and from every portal lands exactly at the normalized, speed-scaled
displacement: no clamping, no avoidance push, no teleport. -/
theorem movePlayer_far_lands (g : Game) (pid : String) (dx dy now : ℝ)
    (p : Player) (z : Zone) (u v : ℝ)
    (hp : g.player pid = some p)
    (hz : g.zone p.CurrentZone = some z)
    (hs : 0 ≤ p.Speed) (hrp : 0 ≤ p.Radius)
    (hrq : ∀ q ∈ g.players, 0 ≤ q.Radius)
    (hmx1 : z.MinX ≤ p.X - p.Speed) (hmx2 : p.X + p.Speed ≤ z.MaxX)
    (hmy1 : z.MinY ≤ p.Y - p.Speed) (hmy2 : p.Y + p.Speed ≤ z.MaxY)
    (hfar : ∀ q ∈ g.players, q.ID ≠ p.ID →
      (p.Radius + q.Radius + CollisionBuffer + p.Speed) *
        (p.Radius + q.Radius + CollisionBuffer + p.Speed) ≤
        (p.X - q.X) * (p.X - q.X) + (p.Y - q.Y) * (p.Y - q.Y))
    (hport : ∀ po ∈ g.portals,
      (100 + p.Speed) * (100 + p.Speed) <
        (p.X - po.X) * (p.X - po.X) + (p.Y - po.Y) * (p.Y - po.Y))
    (hu : u = (if Real.sqrt (dx * dx + dy * dy) > 0 then
      dx / Real.sqrt (dx * dx + dy * dy) else dx) * p.Speed)
    (hv : v = (if Real.sqrt (dx * dx + dy * dy) > 0 then
      dy / Real.sqrt (dx * dx + dy * dy) else dy) * p.Speed)
    (huv : u * u + v * v ≤ p.Speed * p.Speed) :
    ∀ q ∈ (g.MovePlayer pid dx dy now).1.players, q.ID = pid →
      q.X = p.X + u ∧ q.Y = p.Y + v := by
  intro q hq hqid
  have hpid : p.ID = pid := by
    have := List.find?_some hp
    exact of_decide_eq_true this
  have hub1 : u ≤ p.Speed := by nlinarith [sq_nonneg v, sq_nonneg (u - p.Speed), sq_nonneg (u + p.Speed)]
  have hub2 : -p.Speed ≤ u := by nlinarith [sq_nonneg v, sq_nonneg (u - p.Speed), sq_nonneg (u + p.Speed)]
  have hvb1 : v ≤ p.Speed := by nlinarith [sq_nonneg u, sq_nonneg (v - p.Speed), sq_nonneg (v + p.Speed)]
  have hvb2 : -p.Speed ≤ v := by nlinarith [sq_nonneg u, sq_nonneg (v - p.Speed), sq_nonneg (v + p.Speed)]
  have hc : g.constrainToZone p (p.X + u) (p.Y + v) = (p.CurrentZone, p.X + u, p.Y + v) :=
    constrainToZone_id g p (p.X + u) (p.Y + v) z hz
      (by linarith) (by linarith) (by linarith) (by linarith)
  have havoid : avoidOtherPlayers g.players p (p.X + u, p.Y + v) = (p.X + u, p.Y + v) := by
    apply avoidOtherPlayers_eq_self
    intro q2 hq2
    by_cases hid : q2.ID = p.ID
    · exact Or.inl hid
    · right
      intro hlt
      dsimp only at hlt
      have hm : 0 ≤ p.Radius + q2.Radius + CollisionBuffer := by
        have := hrq q2 hq2
        unfold CollisionBuffer
        linarith
      have := shift_sq_lower u v (p.X - q2.X) (p.Y - q2.Y) p.Speed
        (p.Radius + q2.Radius + CollisionBuffer) hs hm huv (hfar q2 hq2 hid)
      have harr : (p.X - q2.X + u) * (p.X - q2.X + u) +
          (p.Y - q2.Y + v) * (p.Y - q2.Y + v) =
          (p.X + u - q2.X) * (p.X + u - q2.X) +
          (p.Y + v - q2.Y) * (p.Y + v - q2.Y) := by ring
      rw [harr] at this
      linarith
  have hmiss : portalHit (p.X + u) (p.Y + v) g.portals = none := by
    apply portalHit_eq_none
    intro po hpo
    intro hle
    have h100 : (0 : ℝ) ≤ 100 := by norm_num
    have := shift_sq_lower_strict u v (p.X - po.X) (p.Y - po.Y) p.Speed 100
      hs h100 huv (hport po hpo)
    have harr : (p.X - po.X + u) * (p.X - po.X + u) +
        (p.Y - po.Y + v) * (p.Y - po.Y + v) =
        (p.X + u - po.X) * (p.X + u - po.X) +
        (p.Y + v - po.Y) * (p.Y + v - po.Y) := by ring
    rw [harr] at this
    norm_num at hle this
    linarith
  unfold Game.MovePlayer at hq
  rw [hp] at hq
  dsimp only at hq
  rw [← hu, ← hv] at hq
  rw [hc] at hq
  dsimp only at hq
  have hp1 : ({ p with CurrentZone := p.CurrentZone } : Player) = p := rfl
  rw [hp1] at hq
  rw [havoid] at hq
  have hsilent : g.checkPortalInteraction { p with X := p.X + u, Y := p.Y + v } now =
      ({ p with X := p.X + u, Y := p.Y + v }, []) := by
    unfold Game.checkPortalInteraction
    by_cases hcool : now < p.PortalCooldown
    · rw [if_pos hcool]
    · rw [if_neg hcool]
      dsimp only
      rw [hmiss]
  rw [hsilent] at hq
  unfold Game.setPlayer at hq
  dsimp only at hq
  obtain ⟨orig, horig, rfl⟩ := List.mem_map.mp hq
  by_cases ho : orig.ID = p.ID
  · rw [if_pos ho]
    exact ⟨rfl, rfl⟩
  · rw [if_neg ho] at hqid ⊢
    exact absurd (hqid.trans hpid.symm) ho

/-- C3: for a player far from the zone borders, the other players and the
portals, the diagonal intent `(1, 1)` and the axis-aligned intent `(1, 0)`
displace the player by the same distance, and both displacements have
magnitude exactly `Speed` (the intent vector is normalized before scaling). -/
theorem C3_diagonal_axis_equal_displacement (g : Game) (pid : String) (now : ℝ)
    (p : Player) (z : Zone)
    (hp : g.player pid = some p)
    (hz : g.zone p.CurrentZone = some z)
    (hs : 0 ≤ p.Speed) (hrp : 0 ≤ p.Radius)
    (hrq : ∀ q ∈ g.players, 0 ≤ q.Radius)
    (hmx1 : z.MinX ≤ p.X - p.Speed) (hmx2 : p.X + p.Speed ≤ z.MaxX)
    (hmy1 : z.MinY ≤ p.Y - p.Speed) (hmy2 : p.Y + p.Speed ≤ z.MaxY)
    (hfar : ∀ q ∈ g.players, q.ID ≠ p.ID →
      (p.Radius + q.Radius + CollisionBuffer + p.Speed) *
        (p.Radius + q.Radius + CollisionBuffer + p.Speed) ≤
        (p.X - q.X) * (p.X - q.X) + (p.Y - q.Y) * (p.Y - q.Y))
    (hport : ∀ po ∈ g.portals,
      (100 + p.Speed) * (100 + p.Speed) <
        (p.X - po.X) * (p.X - po.X) + (p.Y - po.Y) * (p.Y - po.Y)) :
    (∀ q ∈ (g.MovePlayer pid 1 1 now).1.players, q.ID = pid →
      Real.sqrt ((q.X - p.X) * (q.X - p.X) + (q.Y - p.Y) * (q.Y - p.Y)) = p.Speed)
    ∧ (∀ q ∈ (g.MovePlayer pid 1 0 now).1.players, q.ID = pid →
      Real.sqrt ((q.X - p.X) * (q.X - p.X) + (q.Y - p.Y) * (q.Y - p.Y)) = p.Speed) := by
  constructor
  · -- diagonal intent
    have harg : ((1 : ℝ) * 1 + 1 * 1) = 2 := by norm_num
    have hpos2 : Real.sqrt ((1 : ℝ) * 1 + 1 * 1) > 0 := by
      rw [harg]
      exact Real.sqrt_pos.mpr (by norm_num)
    have hmul : Real.sqrt 2 * Real.sqrt 2 = 2 := Real.mul_self_sqrt (by norm_num)
    have key : (1 / Real.sqrt ((1 : ℝ) * 1 + 1 * 1)) *
        (1 / Real.sqrt ((1 : ℝ) * 1 + 1 * 1)) = 1 / 2 := by
      rw [harg, div_mul_div_comm, one_mul, hmul]
    have hsum : (1 / Real.sqrt ((1 : ℝ) * 1 + 1 * 1) * p.Speed) *
          (1 / Real.sqrt ((1 : ℝ) * 1 + 1 * 1) * p.Speed) +
        (1 / Real.sqrt ((1 : ℝ) * 1 + 1 * 1) * p.Speed) *
          (1 / Real.sqrt ((1 : ℝ) * 1 + 1 * 1) * p.Speed) = p.Speed * p.Speed := by
      calc (1 / Real.sqrt ((1 : ℝ) * 1 + 1 * 1) * p.Speed) *
            (1 / Real.sqrt ((1 : ℝ) * 1 + 1 * 1) * p.Speed) +
          (1 / Real.sqrt ((1 : ℝ) * 1 + 1 * 1) * p.Speed) *
            (1 / Real.sqrt ((1 : ℝ) * 1 + 1 * 1) * p.Speed)
          = ((1 / Real.sqrt ((1 : ℝ) * 1 + 1 * 1)) *
              (1 / Real.sqrt ((1 : ℝ) * 1 + 1 * 1))) * (p.Speed * p.Speed) +
            ((1 / Real.sqrt ((1 : ℝ) * 1 + 1 * 1)) *
              (1 / Real.sqrt ((1 : ℝ) * 1 + 1 * 1))) * (p.Speed * p.Speed) := by ring
        _ = (1 / 2) * (p.Speed * p.Speed) + (1 / 2) * (p.Speed * p.Speed) := by rw [key]
        _ = p.Speed * p.Speed := by ring
    have hland := movePlayer_far_lands g pid 1 1 now p z
      (1 / Real.sqrt ((1 : ℝ) * 1 + 1 * 1) * p.Speed)
      (1 / Real.sqrt ((1 : ℝ) * 1 + 1 * 1) * p.Speed)
      hp hz hs hrp hrq hmx1 hmx2 hmy1 hmy2 hfar hport
      (by rw [if_pos hpos2]) (by rw [if_pos hpos2]) (le_of_eq hsum)
    intro q hq hqid
    obtain ⟨hx, hy⟩ := hland q hq hqid
    rw [hx, hy]
    have harr : (p.X + 1 / Real.sqrt ((1 : ℝ) * 1 + 1 * 1) * p.Speed - p.X) =
        1 / Real.sqrt ((1 : ℝ) * 1 + 1 * 1) * p.Speed := by ring
    have harr2 : (p.Y + 1 / Real.sqrt ((1 : ℝ) * 1 + 1 * 1) * p.Speed - p.Y) =
        1 / Real.sqrt ((1 : ℝ) * 1 + 1 * 1) * p.Speed := by ring
    rw [harr, harr2, hsum, Real.sqrt_mul_self hs]
  · -- axis-aligned intent
    have harg : Real.sqrt ((1 : ℝ) * 1 + 0 * 0) = 1 := by
      rw [show ((1 : ℝ) * 1 + 0 * 0) = 1 by norm_num, Real.sqrt_one]
    have hpos1 : Real.sqrt ((1 : ℝ) * 1 + 0 * 0) > 0 := by rw [harg]; norm_num
    have hland := movePlayer_far_lands g pid 1 0 now p z p.Speed 0
      hp hz hs hrp hrq hmx1 hmx2 hmy1 hmy2 hfar hport
      (by rw [if_pos hpos1, harg]; norm_num)
      (by rw [if_pos hpos1]; norm_num)
      (by nlinarith)
    intro q hq hqid
    obtain ⟨hx, hy⟩ := hland q hq hqid
    rw [hx, hy]
    have harr : (p.X + p.Speed - p.X) = p.Speed := by ring
    have harr2 : (p.Y + 0 - p.Y) = (0 : ℝ) := by ring
    rw [harr, harr2]
    rw [show p.Speed * p.Speed + 0 * 0 = p.Speed * p.Speed by ring]
    exact Real.sqrt_mul_self hs

/-- The world of the C3 witness: one living player in the middle of `common`,
no portals. -/
def gC3 : Game :=
  { players := [testPlayer "a" 3000 1500], mobs := [], portals := [],
    zones := initialZones, petalDrops := [] }

/-- Witness for C3: for the lone player of `gC3` both the diagonal and the
axis-aligned command displace by exactly `Speed = 2.5`. -/
theorem C3_diagonal_axis_equal_displacement_witness :
    (gC3.player "a" = some (testPlayer "a" 3000 1500))
    ∧ (0 : ℝ) ≤ (testPlayer "a" 3000 1500).Speed
    ∧ (∀ q ∈ (gC3.MovePlayer "a" 1 1 5).1.players, q.ID = "a" →
        Real.sqrt ((q.X - (testPlayer "a" 3000 1500).X) *
            (q.X - (testPlayer "a" 3000 1500).X) +
          (q.Y - (testPlayer "a" 3000 1500).Y) *
            (q.Y - (testPlayer "a" 3000 1500).Y)) = (testPlayer "a" 3000 1500).Speed)
    ∧ (∀ q ∈ (gC3.MovePlayer "a" 1 0 5).1.players, q.ID = "a" →
        Real.sqrt ((q.X - (testPlayer "a" 3000 1500).X) *
            (q.X - (testPlayer "a" 3000 1500).X) +
          (q.Y - (testPlayer "a" 3000 1500).Y) *
            (q.Y - (testPlayer "a" 3000 1500).Y)) = (testPlayer "a" 3000 1500).Speed) := by
  have hfind : gC3.player "a" = some (testPlayer "a" 3000 1500) := by
    unfold gC3 Game.player testPlayer
    rw [List.find?_cons_of_pos _ (by decide)]
  have hzone : gC3.zone (testPlayer "a" 3000 1500).CurrentZone =
      some { MinX := 0, MaxX := 6000, MinY := 0, MaxY := 3000, Color := "#666666" } := by
    unfold gC3 Game.zone initialZones testPlayer
    rw [List.find?_cons_of_pos _ (by decide)]
    rfl
  have honly : ∀ q ∈ gC3.players, q.ID ≠ (testPlayer "a" 3000 1500).ID → False := by
    intro q hq hne
    unfold gC3 at hq
    rcases List.mem_cons.mp hq with h | h
    · exact hne (by rw [h])
    · exact absurd h (List.not_mem_nil q)
  have hmain := C3_diagonal_axis_equal_displacement gC3 "a" 5
    (testPlayer "a" 3000 1500)
    { MinX := 0, MaxX := 6000, MinY := 0, MaxY := 3000, Color := "#666666" }
    hfind hzone
    (by unfold testPlayer; norm_num)
    (by unfold testPlayer; norm_num)
    (by
      intro q hq
      unfold gC3 at hq
      rcases List.mem_cons.mp hq with h | h
      · rw [h]; unfold testPlayer; norm_num
      · exact absurd h (List.not_mem_nil q))
    (by unfold testPlayer; norm_num)
    (by unfold testPlayer; norm_num)
    (by unfold testPlayer; norm_num)
    (by unfold testPlayer; norm_num)
    (fun q hq hne => absurd (honly q hq hne) not_false)
    (by
      intro po hpo
      unfold gC3 at hpo
      exact absurd hpo (List.not_mem_nil po))
  exact ⟨hfind, by unfold testPlayer; norm_num, hmain.1, hmain.2⟩

/-- A spawn batch of `i` candidates produces at most `i` mobs. -/
theorem spawnBatch_length_le (players : List Player) (zoneName : String)
    (ty : MobType) (rng : SpawnRng) (now : ℝ) :
    ∀ i k, (spawnBatch players zoneName ty rng now i k).1.length ≤ i := by
  intro i
  induction i with
  | zero => intro k; simp [spawnBatch]
  | succ n ih =>
      intro k
      unfold spawnBatch
      dsimp only
      split_ifs with h
      · simpa using Nat.succ_le_succ (ih (k + 1))
      · exact Nat.le_succ_of_le (ih (k + 1))

/-- Every mob produced by a spawn batch carries the zone it was spawned for. -/
theorem spawnBatch_zone (players : List Player) (zoneName : String)
    (ty : MobType) (rng : SpawnRng) (now : ℝ) :
    ∀ i k, ∀ m ∈ (spawnBatch players zoneName ty rng now i k).1,
      m.Zone = zoneName := by
  intro i
  induction i with
  | zero => intro k m hm; simp [spawnBatch] at hm
  | succ n ih =>
      intro k m hm
      unfold spawnBatch at hm
      dsimp only at hm
      split_ifs at hm with h
      · rcases List.mem_cons.mp hm with h2 | h2
        · rw [h2]
          rfl
        · exact ih (k + 1) m h2
      · exact ih (k + 1) m hm

/-- The spawn loop for one zone never produces more than the still needed
count: the cap is never overshot by this mechanism. -/
theorem spawnAttempts_length_le (players : List Player) (zoneName : String)
    (rng : SpawnRng) (now : ℝ) (need : ℕ) :
    ∀ fuel spawned k,
      (spawnAttempts players zoneName rng now need fuel spawned k).1.length ≤
        need - spawned := by
  intro fuel
  induction fuel with
  | zero => intro spawned k; simp [spawnAttempts]
  | succ n ih =>
      intro spawned k
      unfold spawnAttempts
      dsimp only
      by_cases h : spawned < need
      · rw [if_pos h]
        set c := (if need < spawned + (rng.batch k % 3 + 1) then need - spawned
          else rng.batch k % 3 + 1) with hcdef
        have hc : c ≤ need - spawned := by
          rw [hcdef]
          split_ifs with h2
          · omega
          · omega
        set b := spawnBatch players zoneName (rng.mobType k) rng now c (k + 1)
          with hbdef
        have hb : b.1.length ≤ c := by
          rw [hbdef]
          exact spawnBatch_length_le players zoneName (rng.mobType k) rng now c (k + 1)
        have hr := ih (spawned + b.1.length) b.2
        rw [List.length_append]
        omega
      · rw [if_neg h]
        simp

/-- Every mob produced by the per-zone spawn loop carries that zone. -/
theorem spawnAttempts_zone (players : List Player) (zoneName : String)
    (rng : SpawnRng) (now : ℝ) (need : ℕ) :
    ∀ fuel spawned k,
      ∀ m ∈ (spawnAttempts players zoneName rng now need fuel spawned k).1,
        m.Zone = zoneName := by
  intro fuel
  induction fuel with
  | zero => intro spawned k m hm; simp [spawnAttempts] at hm
  | succ n ih =>
      intro spawned k m hm
      unfold spawnAttempts at hm
      dsimp only at hm
      by_cases h : spawned < need
      · rw [if_pos h] at hm
        dsimp only at hm
        rcases List.mem_append.mp hm with h2 | h2
        · exact spawnBatch_zone players zoneName (rng.mobType k) rng now _ _ m h2
        · exact ih _ _ m h2
      · rw [if_neg h] at hm
        simp at hm

/-- Bound on the zone population contributed by the whole spawn fold: with
pairwise distinct zone names, the mobs it adds to a zone never exceed the gap
to the cap of 40 measured at the start of the cycle. -/
theorem spawnFold_count_le (g : Game) (rng : SpawnRng) (now : ℝ) (zn : String) :
    ∀ (zones : List (String × Zone)) (acc : List Mob × ℕ),
      (zones.map Prod.fst).Nodup →
      ((zones.foldl (spawnZoneStep g rng now) acc).1.filter
          (fun m => decide (m.Zone = zn))).length ≤
        (acc.1.filter (fun m => decide (m.Zone = zn))).length +
          (if zn ∈ zones.map Prod.fst then
            (if g.mobCountIn zn ≥ 40 then 0 else 40 - g.mobCountIn zn) else 0) := by
  intro zones
  induction zones with
  | nil =>
      intro acc _
      simp
  | cons zp rest ih =>
      intro acc hnd
      rw [List.map_cons, List.nodup_cons] at hnd
      rw [List.foldl_cons, List.map_cons]
      have hstep := ih (spawnZoneStep g rng now acc zp) hnd.2
      refine hstep.trans ?_
      unfold spawnZoneStep
      by_cases hcap : g.mobCountIn zp.1 ≥ 40
      · rw [if_pos hcap]
        by_cases hmem : zn ∈ rest.map Prod.fst
        · have hmemc : zn ∈ zp.1 :: rest.map Prod.fst := List.mem_cons_of_mem _ hmem
          rw [if_pos hmem, if_pos hmemc]
        · rw [if_neg hmem]
          simp
      · rw [if_neg hcap]
        dsimp only
        rw [List.filter_append, List.length_append]
        by_cases heq : zp.1 = zn
        · have hznotrest : zn ∉ rest.map Prod.fst := heq ▸ hnd.1
          rw [if_neg hznotrest]
          have hlen : ((spawnAttempts g.players zp.1 rng now (40 - g.mobCountIn zp.1)
              ((40 - g.mobCountIn zp.1) * 5) 0 acc.2).1.filter
                (fun m => decide (m.Zone = zn))).length ≤
              40 - g.mobCountIn zn := by
            calc ((spawnAttempts g.players zp.1 rng now (40 - g.mobCountIn zp.1)
                ((40 - g.mobCountIn zp.1) * 5) 0 acc.2).1.filter
                  (fun m => decide (m.Zone = zn))).length
                ≤ (spawnAttempts g.players zp.1 rng now (40 - g.mobCountIn zp.1)
                  ((40 - g.mobCountIn zp.1) * 5) 0 acc.2).1.length :=
                  List.length_filter_le _ _
              _ ≤ 40 - g.mobCountIn zp.1 - 0 :=
                  spawnAttempts_length_le g.players zp.1 rng now _ _ 0 acc.2
              _ = 40 - g.mobCountIn zn := by rw [heq]; omega
          have hmemc : zn ∈ zp.1 :: rest.map Prod.fst := by
            rw [← heq]
            exact List.mem_cons_self _ _
          have hncap : ¬ g.mobCountIn zn ≥ 40 := by rw [← heq]; exact hcap
          rw [if_pos hmemc, if_neg hncap]
          omega
        · have hzero : ((spawnAttempts g.players zp.1 rng now (40 - g.mobCountIn zp.1)
              ((40 - g.mobCountIn zp.1) * 5) 0 acc.2).1.filter
                (fun m => decide (m.Zone = zn))).length = 0 := by
            rw [List.length_eq_zero]
            rw [List.filter_eq_nil_iff]
            intro m hm
            have := spawnAttempts_zone g.players zp.1 rng now _ _ _ _ m hm
            rw [this]
            simpa using heq
          rw [hzero]
          by_cases hmem : zn ∈ rest.map Prod.fst
          · have hmemc : zn ∈ zp.1 :: rest.map Prod.fst := List.mem_cons_of_mem _ hmem
            rw [if_pos hmem, if_pos hmemc]
            omega
          · have hmemc : zn ∉ zp.1 :: rest.map Prod.fst := by
              rw [List.mem_cons]
              rintro (h | h)
              · exact heq h.symm
              · exact hmem h
            rw [if_neg hmem, if_neg hmemc]

/-- C8: one execution of the spawn cycle never raises a zone mob count above
the cap of 40, and the number of mobs it adds to a zone is at most the cap
minus the zone population at the start of the cycle (zero when already at or
above the cap). -/
theorem C8_spawn_never_overshoots (g : Game) (rng : SpawnRng) (now : ℝ)
    (zn : String) (hnd : (g.zones.map Prod.fst).Nodup) :
    (g.spawnMobsIfNeeded rng now).mobCountIn zn ≤ max (g.mobCountIn zn) 40
    ∧ (g.spawnMobsIfNeeded rng now).mobCountIn zn - g.mobCountIn zn ≤
      40 - g.mobCountIn zn := by
  have hfold := spawnFold_count_le g rng now zn g.zones ([], 0) hnd
  have hsplit : (g.spawnMobsIfNeeded rng now).mobCountIn zn =
      g.mobCountIn zn +
      ((g.zones.foldl (spawnZoneStep g rng now) ([], 0)).1.filter
        (fun m => decide (m.Zone = zn))).length := by
    unfold Game.spawnMobsIfNeeded Game.mobCountIn
    dsimp only
    rw [List.filter_append, List.length_append]
  simp only [List.filter_nil, List.length_nil, zero_add] at hfold
  constructor
  · rw [hsplit]
    by_cases hmem : zn ∈ g.zones.map Prod.fst
    · rw [if_pos hmem] at hfold
      by_cases hcap : g.mobCountIn zn ≥ 40
      · rw [if_pos hcap] at hfold
        omega
      · rw [if_neg hcap] at hfold
        omega
    · rw [if_neg hmem] at hfold
      omega
  · rw [hsplit]
    by_cases hmem : zn ∈ g.zones.map Prod.fst
    · rw [if_pos hmem] at hfold
      by_cases hcap : g.mobCountIn zn ≥ 40
      · rw [if_pos hcap] at hfold
        omega
      · rw [if_neg hcap] at hfold
        omega
    · rw [if_neg hmem] at hfold
      omega

/-- A fixed random source for the C8 witness. -/
def rngC8 : SpawnRng :=
  { mobType := fun _ => MobType.goblin, batch := fun _ => 0,
    pos := fun _ => (100, 100), rarity := fun _ => 0, jitter := fun _ => 0,
    ids := fun _ => "m" }

/-- The world of the C8 witness: the five initialized zones, no mobs yet. -/
def gC8 : Game :=
  { players := [], mobs := [], portals := initialPortals, zones := initialZones,
    petalDrops := [] }

/-- Witness for C8: in the initialized world one spawn cycle leaves the
`common` mob count at or below the cap of 40 and adds at most 40 mobs there. -/
theorem C8_spawn_never_overshoots_witness :
    (gC8.zones.map Prod.fst).Nodup
    ∧ ((gC8.spawnMobsIfNeeded rngC8 3).mobCountIn "common" ≤
        max (gC8.mobCountIn "common") 40
      ∧ (gC8.spawnMobsIfNeeded rngC8 3).mobCountIn "common" -
          gC8.mobCountIn "common" ≤ 40 - gC8.mobCountIn "common") := by
  have hnd : (gC8.zones.map Prod.fst).Nodup := by
    show (initialZones.map Prod.fst).Nodup
    unfold initialZones
    simp [List.nodup_cons]
  exact ⟨hnd, C8_spawn_never_overshoots gC8 rngC8 3 "common" hnd⟩

/-- A pickup pass in which no drop satisfies the pickup condition is a
complete no-op for that player: no store change, no notification. -/
theorem tryPickup_no_guard (g : Game) (player : Player) (petalID : String)
    (now : ℝ) : ∀ ds, (∀ d ∈ ds, ¬ pickupGuard player d) →
      g.tryPickupFor player petalID now ds = (g, []) := by
  intro ds
  induction ds with
  | nil => intro _; rfl
  | cons drop rest ih =>
      intro h
      unfold Game.tryPickupFor
      rw [if_neg (h drop (List.mem_cons_self drop rest))]
      exact ih fun d hd => h d (List.mem_cons_of_mem drop hd)

/-- A drop that this player does not own survives the whole pickup scan of
that player. -/
theorem tryPickup_nonowner_survives (g : Game) (player : Player)
    (petalID : String) (now : ℝ) :
    ∀ ds, (∀ x ∈ ds, x ∈ g.petalDrops) →
      (g.petalDrops.map PetalDrop.ID).Nodup →
      ∀ d ∈ g.petalDrops, ¬ d.CanBePickedBy player.ID →
      d ∈ (g.tryPickupFor player petalID now ds).1.petalDrops := by
  intro ds
  induction ds with
  | nil =>
      intro _ _ d hd _
      exact hd
  | cons drop rest ih =>
      intro hsub hnd d hd hno
      unfold Game.tryPickupFor
      by_cases hg : pickupGuard player drop
      · rw [if_pos hg]
        unfold Game.pickUpPetal
        dsimp only
        apply List.mem_filter.mpr
        refine ⟨hd, ?_⟩
        rw [decide_eq_true_eq]
        intro hid
        have hdrop : drop ∈ g.petalDrops := hsub drop (List.mem_cons_self drop rest)
        have : d = drop := List.inj_on_of_nodup_map hnd hd hdrop hid
        rw [this] at hno
        exact hno hg.1
      · rw [if_neg hg]
        exact ih (fun x hx => hsub x (List.mem_cons_of_mem drop hx)) hnd d hd hno

/-- The pickup scan stops at the first drop satisfying the pickup condition
and behaves as `pickUpPetal` on it. -/
theorem tryPickup_first (g : Game) (player : Player) (petalID : String)
    (now : ℝ) (d : PetalDrop) (hg : pickupGuard player d) :
    ∀ pre post, (∀ dp ∈ pre, ¬ pickupGuard player dp) →
      g.tryPickupFor player petalID now (pre ++ d :: post) =
        g.pickUpPetal player d petalID now := by
  intro pre
  induction pre with
  | nil =>
      intro post _
      rw [List.nil_append]
      unfold Game.tryPickupFor
      rw [if_pos hg]
  | cons p0 rest ih =>
      intro post hpre
      rw [List.cons_append]
      unfold Game.tryPickupFor
      rw [if_neg (hpre p0 (List.mem_cons_self p0 rest))]
      exact ih post fun dp hdp => hpre dp (List.mem_cons_of_mem p0 hdp)

/-- C6: a pickup attempt by a player who owns none of the drops changes
nothing and emits nothing; a drop not owned by the scanning player always
survives that scan; and the first owned drop within pickup radius of its
living owner is consumed: it leaves the store (all other drops stay) and the
owner gains exactly one new petal of the type of the drop. -/
theorem C6_drop_owner_exclusive (g : Game) (player : Player) (petalID : String)
    (now : ℝ) :
    ((∀ d ∈ g.petalDrops, ¬ d.CanBePickedBy player.ID) →
      g.tryPickupFor player petalID now g.petalDrops = (g, []))
    ∧ ((g.petalDrops.map PetalDrop.ID).Nodup →
        ∀ d ∈ g.petalDrops, ¬ d.CanBePickedBy player.ID →
        d ∈ (g.tryPickupFor player petalID now g.petalDrops).1.petalDrops)
    ∧ (∀ pre post (d : PetalDrop), g.petalDrops = pre ++ d :: post →
        (∀ dp ∈ pre, ¬ pickupGuard player dp) →
        pickupGuard player d →
        g.tryPickupFor player petalID now g.petalDrops =
          g.pickUpPetal player d petalID now
        ∧ d ∉ (g.pickUpPetal player d petalID now).1.petalDrops
        ∧ (∀ d2 ∈ g.petalDrops, ¬ d2.ID = d.ID →
            d2 ∈ (g.pickUpPetal player d petalID now).1.petalDrops)
        ∧ (∀ q ∈ (g.pickUpPetal player d petalID now).1.players,
            q.ID = player.ID →
            q.Petals = player.Petals ++ [NewPetal d.type player.ID petalID now])
        ∧ (NewPetal d.type player.ID petalID now).type = d.type) := by
  refine ⟨?_, ?_, ?_⟩
  · intro h
    exact tryPickup_no_guard g player petalID now g.petalDrops
      fun d hd hguard => h d hd hguard.1
  · intro hnd d hd hno
    exact tryPickup_nonowner_survives g player petalID now g.petalDrops
      (fun x hx => hx) hnd d hd hno
  · intro pre post d hsplit hpre hg
    refine ⟨?_, ?_, ?_, ?_, rfl⟩
    · rw [hsplit]
      exact tryPickup_first g player petalID now d hg pre post hpre
    · intro hmem
      unfold Game.pickUpPetal at hmem
      dsimp only at hmem
      have := (List.mem_filter.mp hmem).2
      simp at this
    · intro d2 hd2 hne
      unfold Game.pickUpPetal
      dsimp only
      exact List.mem_filter.mpr ⟨hd2, by rw [decide_eq_true_eq]; exact hne⟩
    · intro q hq hqid
      unfold Game.pickUpPetal Game.setPlayer at hq
      dsimp only at hq
      obtain ⟨orig, horig, rfl⟩ := List.mem_map.mp hq
      by_cases ho : orig.ID = (player.AddPetal d.type petalID now).ID
      · rw [if_pos ho]
        rfl
      · rw [if_neg ho] at hqid ⊢
        exact absurd hqid ho

/-- The drop of the C6 worlds: owned by the player with id `o` (or the dead
`d`), lying 10 units east of its owner. -/
def dropAt (owner : String) (x y : ℝ) : PetalDrop :=
  { ID := "dr", type := PetalType.wolf, X := x, Y := y, OwnerID := owner,
    Zone := "common", Created := 0, Lifetime := 30 }

/-- The world of the C6 counterexample: the owner of the drop is dead and
stands 10 units from it. -/
def gC6x : Game :=
  { players := [{ testPlayer "d" 400 400 with Health := 0 }], mobs := [],
    portals := [], zones := initialZones, petalDrops := [dropAt "d" 410 400] }

/-- C6 fails on the code as stated: the owner of a drop standing well inside
the 50 unit pickup radius picks nothing up when dead — the loot pass leaves
the store unchanged, adds no petal and emits nothing, because `checkPetalDrops`
also requires `player.IsAlive()`. -/
theorem C6_counterexample :
    (dropAt "d" 410 400) ∈ gC6x.petalDrops
    ∧ (dropAt "d" 410 400).CanBePickedBy
        ({ testPlayer "d" 400 400 with Health := 0 } : Player).ID
    ∧ ({ testPlayer "d" 400 400 with Health := 0 } : Player).DistanceTo
        (dropAt "d" 410 400).X (dropAt "d" 410 400).Y < 50
    ∧ gC6x.checkPetalDrops 5 (fun _ => "np") = (gC6x, []) := by
  have hs100 : Real.sqrt 100 = 10 := by
    rw [show (100 : ℝ) = 10 ^ 2 by norm_num, Real.sqrt_sq (by norm_num)]
  have hdist : ({ testPlayer "d" 400 400 with Health := 0 } : Player).DistanceTo
      (dropAt "d" 410 400).X (dropAt "d" 410 400).Y < 50 := by
    unfold Player.DistanceTo testPlayer dropAt
    norm_num [hs100]
  refine ⟨List.mem_cons_self _ _, by unfold dropAt testPlayer; rfl, hdist, ?_⟩
  have hkeep : gC6x.petalDrops.filter (fun d => decide (¬ d.IsExpired 5)) =
      gC6x.petalDrops := by
    show List.filter _ [dropAt "d" 410 400] = [dropAt "d" 410 400]
    rw [List.filter_cons]
    rw [if_pos ?hcond]
    · rfl
    · rw [decide_eq_true_eq]
      unfold dropAt PetalDrop.IsExpired
      norm_num
  unfold Game.checkPetalDrops
  dsimp only
  rw [hkeep]
  have heta : ({ gC6x with petalDrops := gC6x.petalDrops } : Game) = gC6x := rfl
  rw [heta]
  unfold Game.pickupPass
  dsimp only
  have hfind : gC6x.player "d" = some { testPlayer "d" 400 400 with Health := 0 } := by
    unfold gC6x Game.player testPlayer
    rw [List.find?_cons_of_pos _ (by decide)]
  show (match gC6x.player "d" with
    | some player =>
        let r := gC6x.tryPickupFor player "np" 5 gC6x.petalDrops
        let rec1 := r.1.pickupPass 5 (fun _ => "np") [] 1
        (rec1.1, r.2 ++ rec1.2)
    | none => gC6x.pickupPass 5 (fun _ => "np") [] 1) = (gC6x, [])
  rw [hfind]
  dsimp only
  have hnoop : gC6x.tryPickupFor { testPlayer "d" 400 400 with Health := 0 }
      "np" 5 gC6x.petalDrops = (gC6x, []) := by
    apply tryPickup_no_guard
    intro d hd hguard
    have hdead : ¬ ({ testPlayer "d" 400 400 with Health := 0 } : Player).IsAlive := by
      unfold Player.IsAlive testPlayer
      norm_num
    exact hdead hguard.2.1
  rw [hnoop]
  simp [Game.pickupPass]

/-- The world of the C6 witness: the living owner `o` of the drop 10 units
away, and another living player `p`. -/
def gC6 : Game :=
  { players := [testPlayer "o" 400 400, testPlayer "p" 600 600], mobs := [],
    portals := [], zones := initialZones, petalDrops := [dropAt "o" 410 400] }

/-- Witness for C6: in `gC6` the non-owner `p` owns no drop so its pickup pass
is a no-op, and the living owner `o` consumes the drop and gains exactly one
wolf petal. -/
theorem C6_drop_owner_exclusive_witness :
    ((∀ d ∈ gC6.petalDrops, ¬ d.CanBePickedBy (testPlayer "p" 600 600).ID)
      ∧ gC6.tryPickupFor (testPlayer "p" 600 600) "np" 5 gC6.petalDrops = (gC6, []))
    ∧ (gC6.petalDrops = [] ++ (dropAt "o" 410 400) :: []
      ∧ pickupGuard (testPlayer "o" 400 400) (dropAt "o" 410 400)
      ∧ gC6.tryPickupFor (testPlayer "o" 400 400) "np" 5 gC6.petalDrops =
          gC6.pickUpPetal (testPlayer "o" 400 400) (dropAt "o" 410 400) "np" 5
      ∧ (dropAt "o" 410 400) ∉
          (gC6.pickUpPetal (testPlayer "o" 400 400) (dropAt "o" 410 400) "np" 5).1.petalDrops
      ∧ (∀ q ∈ (gC6.pickUpPetal (testPlayer "o" 400 400) (dropAt "o" 410 400) "np" 5).1.players,
          q.ID = (testPlayer "o" 400 400).ID →
          q.Petals = (testPlayer "o" 400 400).Petals ++
            [NewPetal (dropAt "o" 410 400).type (testPlayer "o" 400 400).ID "np" 5])
      ∧ (NewPetal (dropAt "o" 410 400).type (testPlayer "o" 400 400).ID "np" 5).type =
          (dropAt "o" 410 400).type) := by
  have hs100 : Real.sqrt 100 = 10 := by
    rw [show (100 : ℝ) = 10 ^ 2 by norm_num, Real.sqrt_sq (by norm_num)]
  have hnoto : ∀ d ∈ gC6.petalDrops, ¬ d.CanBePickedBy (testPlayer "p" 600 600).ID := by
    intro d hd
    unfold gC6 at hd
    rcases List.mem_cons.mp hd with h | h
    · rw [h]
      unfold PetalDrop.CanBePickedBy dropAt testPlayer
      decide
    · exact absurd h (List.not_mem_nil d)
  have hguard : pickupGuard (testPlayer "o" 400 400) (dropAt "o" 410 400) := by
    refine ⟨by unfold PetalDrop.CanBePickedBy dropAt testPlayer; rfl, ?_, ?_⟩
    · unfold Player.IsAlive testPlayer
      norm_num
    · unfold Player.DistanceTo testPlayer dropAt
      norm_num [hs100]
  have hsplit : gC6.petalDrops = [] ++ (dropAt "o" 410 400) :: [] := rfl
  have hmain := (C6_drop_owner_exclusive gC6 (testPlayer "o" 400 400) "np" 5).2.2
    [] [] (dropAt "o" 410 400) hsplit (by intro dp hdp; exact absurd hdp (List.not_mem_nil dp))
    hguard
  exact ⟨⟨hnoto, (C6_drop_owner_exclusive gC6 (testPlayer "p" 600 600) "np" 5).1 hnoto⟩,
    hsplit, hguard, hmain.1, hmain.2.1, hmain.2.2.2.1, hmain.2.2.2.2⟩

/-- Transition facts of one player versus mob collision handler call on a mob
that is alive at entry: identifiers are stable, the player and mob stores are
untouched by the handler itself, and exactly one loot drop — at the mob
position, typed by the archetype mapping and owned by the colliding player —
is appended exactly when the mob leaves the handler dead. -/
theorem handlePlayerMobCollision_facts (g : Game) (player : Player) (mob : Mob)
    (now : ℝ) (dropID : String) (pl : Player)
    (halive : mob.IsAlive)
    (hlookup : g.player player.ID = some pl) :
    ((g.handlePlayerMobCollision player mob now dropID).2.1.ID = player.ID
      ∧ (g.handlePlayerMobCollision player mob now dropID).2.2.1.ID = mob.ID
      ∧ (g.handlePlayerMobCollision player mob now dropID).1.players = g.players
      ∧ (g.handlePlayerMobCollision player mob now dropID).1.mobs = g.mobs)
    ∧ (¬ (g.handlePlayerMobCollision player mob now dropID).2.2.1.IsAlive →
        (g.handlePlayerMobCollision player mob now dropID).1.petalDrops =
          g.petalDrops ++
            [{ ID := dropID, type := petalTypeForMob mob.type, X := mob.X,
               Y := mob.Y, OwnerID := player.ID, Zone := pl.CurrentZone,
               Created := now, Lifetime := 30 }])
    ∧ ((g.handlePlayerMobCollision player mob now dropID).2.2.1.IsAlive →
        (g.handlePlayerMobCollision player mob now dropID).1.petalDrops =
          g.petalDrops) := by
  unfold Game.handlePlayerMobCollision
  dsimp only
  by_cases hma : mob.CanAttack now
  · rw [if_pos hma]
    unfold Player.TakeDamageFromMob
    dsimp only
    rw [if_pos rfl]
    by_cases hpd : ¬ ({ player with
        Health := if player.Health - mob.Damage < 0 then 0
          else player.Health - mob.Damage,
        LastHitTime := now } : Player).IsAlive
    · rw [if_pos hpd]
      unfold Game.handlePlayerDeath Player.RemoveAllPetals
      dsimp only
      by_cases hca : ({ player with
          Health := if player.Health - mob.Damage < 0 then 0
            else player.Health - mob.Damage,
          LastHitTime := now, Petals := [] } : Player).CanAttack now
      · rw [if_pos hca]
        by_cases hdead : ¬ ((mob.MarkAttack now).TakeDamage player.CollisionDamage).IsAlive
        · rw [if_pos hdead]
          unfold Game.createPetalDrop Player.MarkAttack Mob.MarkAttack Mob.TakeDamage
          dsimp only
          rw [hlookup]
          dsimp only
          exact ⟨⟨rfl, rfl, rfl, rfl⟩, fun _ => rfl, fun h => absurd h hdead⟩
        · rw [if_neg hdead]
          rw [not_not] at hdead
          exact ⟨⟨rfl, rfl, rfl, rfl⟩, fun h => absurd hdead h, fun _ => rfl⟩
      · rw [if_neg hca]
        have hal2 : ((mob.MarkAttack now) : Mob).IsAlive := halive
        exact ⟨⟨rfl, rfl, rfl, rfl⟩, fun h => absurd hal2 h, fun _ => rfl⟩
    · rw [if_neg hpd]
      by_cases hca : ({ player with
          Health := if player.Health - mob.Damage < 0 then 0
            else player.Health - mob.Damage,
          LastHitTime := now } : Player).CanAttack now
      · rw [if_pos hca]
        by_cases hdead : ¬ ((mob.MarkAttack now).TakeDamage player.CollisionDamage).IsAlive
        · rw [if_pos hdead]
          unfold Game.createPetalDrop Player.MarkAttack Mob.MarkAttack Mob.TakeDamage
          dsimp only
          rw [hlookup]
          dsimp only
          exact ⟨⟨rfl, rfl, rfl, rfl⟩, fun _ => rfl, fun h => absurd h hdead⟩
        · rw [if_neg hdead]
          rw [not_not] at hdead
          exact ⟨⟨rfl, rfl, rfl, rfl⟩, fun h => absurd hdead h, fun _ => rfl⟩
      · rw [if_neg hca]
        have hal2 : ((mob.MarkAttack now) : Mob).IsAlive := halive
        exact ⟨⟨rfl, rfl, rfl, rfl⟩, fun h => absurd hal2 h, fun _ => rfl⟩
  · rw [if_neg hma]
    by_cases hca : player.CanAttack now
    · rw [if_pos hca]
      by_cases hdead : ¬ (mob.TakeDamage player.CollisionDamage).IsAlive
      · rw [if_pos hdead]
        unfold Game.createPetalDrop Player.MarkAttack Mob.TakeDamage
        dsimp only
        rw [hlookup]
        dsimp only
        exact ⟨⟨rfl, rfl, rfl, rfl⟩, fun _ => rfl, fun h => absurd h hdead⟩
      · rw [if_neg hdead]
        rw [not_not] at hdead
        exact ⟨⟨rfl, rfl, rfl, rfl⟩, fun h => absurd hdead h, fun _ => rfl⟩
    · rw [if_neg hca]
      exact ⟨⟨rfl, rfl, rfl, rfl⟩, fun h => absurd halive h, fun _ => rfl⟩

/-- Transition facts of one companion item versus mob collision handler call
on a mob that is alive at entry, when the item owner is present in the store:
exactly one loot drop — at the mob position, typed by the archetype mapping
and owned by the item owner — is appended exactly when the mob leaves the
handler dead. -/
theorem handlePetalMobCollision_facts (g : Game) (petal : Petal) (mob : Mob)
    (now : ℝ) (dropID : String) (pl : Player)
    (halive : mob.IsAlive)
    (hlookup : g.player petal.OwnerID = some pl) :
    (¬ (g.handlePetalMobCollision petal mob now dropID).2.2.1.IsAlive →
        (g.handlePetalMobCollision petal mob now dropID).1.petalDrops =
          g.petalDrops ++
            [{ ID := dropID, type := petalTypeForMob mob.type, X := mob.X,
               Y := mob.Y, OwnerID := petal.OwnerID, Zone := pl.CurrentZone,
               Created := now, Lifetime := 30 }])
    ∧ ((g.handlePetalMobCollision petal mob now dropID).2.2.1.IsAlive →
        (g.handlePetalMobCollision petal mob now dropID).1.petalDrops =
          g.petalDrops) := by
  unfold Game.handlePetalMobCollision
  dsimp only
  by_cases hpa : petal.CanAttack now
  · rw [if_pos hpa]
    by_cases hdead : ¬ (mob.TakeDamage petal.Damage).IsAlive
    · rw [if_pos hdead, hlookup]
      dsimp only
      unfold Game.createPetalDrop
      dsimp only
      rw [hlookup]
      dsimp only
      split_ifs with hmr hact <;>
        exact ⟨fun _ => by unfold Mob.TakeDamage; rfl, fun h => absurd h hdead⟩
    · rw [if_neg hdead]
      dsimp only
      rw [not_not] at hdead
      split_ifs with hmr hact <;>
        exact ⟨fun h => absurd hdead h, fun _ => rfl⟩
  · rw [if_neg hpa]
    dsimp only
    split_ifs with hmr hact <;>
      exact ⟨fun h => absurd halive h, fun _ => rfl⟩

/-- The number of living mobs in a list. -/
noncomputable def aliveCount (l : List Mob) : ℕ :=
  (l.filter (fun m => decide m.IsAlive)).length

/-- `aliveCount` of a cons. -/
theorem aliveCount_cons (q : Mob) (l : List Mob) :
    aliveCount (q :: l) = (if q.IsAlive then 1 else 0) + aliveCount l := by
  unfold aliveCount
  rw [List.filter_cons]
  by_cases h : q.IsAlive
  · simp [h]
    omega
  · simp [h]

/-- Writing one mob back through its pointer keeps the identifier column of
the store. -/
theorem setMob_map_id (l : List Mob) (m2 : Mob) :
    ((l.map (fun q => if q.ID = m2.ID then m2 else q)).map Mob.ID) =
      l.map Mob.ID := by
  rw [List.map_map]
  apply List.map_congr_left
  intro q _
  show (if q.ID = m2.ID then m2 else q).ID = q.ID
  by_cases h : q.ID = m2.ID
  · rw [if_pos h, h]
  · rw [if_neg h]

/-- Writing one player back keeps the identifier column of the player store. -/
theorem setPlayer_map_id (l : List Player) (p2 : Player) :
    ((l.map (fun q => if q.ID = p2.ID then p2 else q)).map Player.ID) =
      l.map Player.ID := by
  rw [List.map_map]
  apply List.map_congr_left
  intro q _
  show (if q.ID = p2.ID then p2 else q).ID = q.ID
  by_cases h : q.ID = p2.ID
  · rw [if_pos h, h]
  · rw [if_neg h]

/-- Writing one mob back exchanges exactly its aliveness bit in the count
(identifier uniqueness pins the single occurrence). -/
theorem aliveCount_set (m2 : Mob) :
    ∀ (l : List Mob) (mob : Mob), (l.map Mob.ID).Nodup → mob ∈ l →
      m2.ID = mob.ID →
      aliveCount (l.map (fun q => if q.ID = m2.ID then m2 else q)) +
          (if mob.IsAlive then 1 else 0) =
        aliveCount l + (if m2.IsAlive then 1 else 0) := by
  intro l
  induction l with
  | nil =>
      intro mob _ hmem _
      exact absurd hmem (List.not_mem_nil mob)
  | cons q rest ih =>
      intro mob hnd hmem hid
      rw [List.map_cons, List.nodup_cons] at hnd
      rw [List.map_cons, aliveCount_cons, aliveCount_cons]
      by_cases hq : q.ID = m2.ID
      · have hmq : mob = q := by
          rcases List.mem_cons.mp hmem with h | h
          · exact h
          · exfalso
            apply hnd.1
            rw [hq, hid]
            exact List.mem_map.mpr ⟨mob, h, rfl⟩
        have hrest : rest.map (fun q2 => if q2.ID = m2.ID then m2 else q2) = rest := by
          rw [show rest.map (fun q2 => if q2.ID = m2.ID then m2 else q2) =
              rest.map id from List.map_congr_left ?_, List.map_id]
          intro x hx
          rw [id]
          rw [if_neg ?_]
          intro hxid
          apply hnd.1
          rw [hq, ← hxid]
          exact List.mem_map.mpr ⟨x, hx, rfl⟩
        rw [if_pos hq, hrest]
        subst hmq
        omega
      · have hmob : mob ∈ rest := by
          rcases List.mem_cons.mp hmem with h | h
          · exfalso
            apply hq
            rw [hid, h]
          · exact h
        rw [if_neg hq]
        have := ih mob hnd.2 hmob hid
        omega

/-- Through the inner mob loop of the collision sweep for one player, the
identifier column of the mob store is unchanged and the sum of the loot-drop
count and the living-mob count is invariant: each kill removes one living mob
and adds exactly one drop, and nothing else changes either quantity. -/
theorem collideWithMobs_invariant (pid : String) (now : ℝ) (dropIds : ℕ → String) :
    ∀ (mids : List String) (g : Game) (k : ℕ), (g.mobs.map Mob.ID).Nodup →
      ((g.collideWithMobs pid now dropIds mids k).1.mobs.map Mob.ID =
        g.mobs.map Mob.ID)
      ∧ ((g.collideWithMobs pid now dropIds mids k).1.petalDrops.length +
          aliveCount (g.collideWithMobs pid now dropIds mids k).1.mobs =
        g.petalDrops.length + aliveCount g.mobs) := by
  intro mids
  induction mids with
  | nil =>
      intro g k _
      exact ⟨rfl, rfl⟩
  | cons mid rest ih =>
      intro g k hnd
      unfold Game.collideWithMobs
      cases hpl : g.player pid with
      | none =>
          dsimp only
          exact ih g k hnd
      | some player =>
          cases hmo : g.mob mid with
          | none =>
              dsimp only
              exact ih g k hnd
          | some mob =>
              dsimp only
              by_cases hguard : mob.IsAlive ∧ mob.Zone = player.CurrentZone ∧
                  player.DistanceTo mob.X mob.Y < player.Radius + mob.Radius
              · rw [if_pos hguard]
                dsimp only
                have hpid : player.ID = pid := by
                  have := List.find?_some hpl
                  exact of_decide_eq_true this
                have hlook2 : g.player player.ID = some player := by
                  rw [hpid]
                  exact hpl
                have hfacts := handlePlayerMobCollision_facts g player mob now
                  (dropIds k) player hguard.1 hlook2
                set r := g.handlePlayerMobCollision player mob now (dropIds k)
                  with hrdef
                have hmobmem : mob ∈ g.mobs := List.mem_of_find?_eq_some hmo
                have hg1mobs : ((r.1.setPlayer r.2.1).setMob r.2.2.1).mobs =
                    g.mobs.map (fun q => if q.ID = r.2.2.1.ID then r.2.2.1 else q) := by
                  show r.1.mobs.map _ = _
                  rw [hfacts.1.2.2.2]
                have hg1drops : ((r.1.setPlayer r.2.1).setMob r.2.2.1).petalDrops =
                    r.1.petalDrops := rfl
                have hidmap : ((r.1.setPlayer r.2.1).setMob r.2.2.1).mobs.map Mob.ID =
                    g.mobs.map Mob.ID := by
                  rw [hg1mobs]
                  exact setMob_map_id g.mobs r.2.2.1
                have hcount := aliveCount_set r.2.2.1 g.mobs mob hnd hmobmem
                  hfacts.1.2.1
                have hnd2 : (((r.1.setPlayer r.2.1).setMob r.2.2.1).mobs.map Mob.ID).Nodup := by
                  rw [hidmap]
                  exact hnd
                have hrec := ih ((r.1.setPlayer r.2.1).setMob r.2.2.1) (k + 1) hnd2
                refine ⟨hrec.1.trans hidmap, ?_⟩
                have hsum2 := hrec.2
                have hbit : aliveCount ((r.1.setPlayer r.2.1).setMob r.2.2.1).mobs +
                    (if mob.IsAlive then 1 else 0) =
                    aliveCount g.mobs + (if r.2.2.1.IsAlive then 1 else 0) := by
                  rw [hg1mobs]
                  exact hcount
                have halivebit : (if mob.IsAlive then 1 else 0) = 1 := if_pos hguard.1
                by_cases hafter : r.2.2.1.IsAlive
                · have hdrops : r.1.petalDrops = g.petalDrops := hfacts.2.2 hafter
                  have habit : (if r.2.2.1.IsAlive then 1 else 0) = 1 := if_pos hafter
                  rw [hg1drops, hdrops] at hsum2
                  rw [halivebit, habit] at hbit
                  have hB := Nat.add_right_cancel hbit
                  rw [← hB]
                  exact hsum2
                · have hdrops := hfacts.2.1 hafter
                  have habit : (if r.2.2.1.IsAlive then 1 else 0) = 0 := if_neg hafter
                  rw [hg1drops, hdrops] at hsum2
                  rw [List.length_append] at hsum2
                  rw [halivebit, habit] at hbit
                  simp only [add_zero] at hbit
                  rw [← hbit]
                  rw [hsum2]
                  rw [List.length_singleton]
                  ring
              · rw [if_neg hguard]
                exact ih g k hnd

/-- Through the outer player loop of the collision sweep the same invariant
holds. -/
theorem collidePlayers_invariant (now : ℝ) (dropIds : ℕ → String)
    (mobIDs : List String) :
    ∀ (pids : List String) (g : Game) (k : ℕ), (g.mobs.map Mob.ID).Nodup →
      ((g.collidePlayers now dropIds mobIDs pids k).1.mobs.map Mob.ID =
        g.mobs.map Mob.ID)
      ∧ ((g.collidePlayers now dropIds mobIDs pids k).1.petalDrops.length +
          aliveCount (g.collidePlayers now dropIds mobIDs pids k).1.mobs =
        g.petalDrops.length + aliveCount g.mobs) := by
  intro pids
  induction pids with
  | nil =>
      intro g k _
      exact ⟨rfl, rfl⟩
  | cons pid rest ih =>
      intro g k hnd
      unfold Game.collidePlayers
      cases hpl : g.player pid with
      | none =>
          dsimp only
          exact ih g k hnd
      | some player =>
          dsimp only
          by_cases halive : player.IsAlive
          · rw [if_pos halive]
            dsimp only
            have hinner := collideWithMobs_invariant pid now dropIds mobIDs g k hnd
            have hnd2 : ((g.collideWithMobs pid now dropIds mobIDs k).1.mobs.map
                Mob.ID).Nodup := by
              rw [hinner.1]
              exact hnd
            have hrec := ih (g.collideWithMobs pid now dropIds mobIDs k).1
              (g.collideWithMobs pid now dropIds mobIDs k).2.2 hnd2
            refine ⟨hrec.1.trans hinner.1, ?_⟩
            omega
          · rw [if_neg halive]
            exact ih g k hnd

/-- C5: a mob killed by a player collision produces exactly one loot drop, at
the mob position, typed by the fixed archetype mapping and owned by the
killer; a mob killed by a companion item produces exactly one drop owned by
the item owner; the mapping sends wolf to wolf, goblin to goblin and orc to
orc; and one whole collision sweep adds exactly one drop per mob death: the
final drop count plus the surviving mob count equals the initial drop count
plus the initially living mob count. -/
theorem C5_exactly_one_drop_per_kill (g : Game) (player : Player)
    (petal : Petal) (mob : Mob) (now : ℝ) (dropID : String)
    (dropIds : ℕ → String) (pl pl2 : Player) :
    (mob.IsAlive → g.player player.ID = some pl →
      ((g.handlePlayerMobCollision player mob now dropID).2.1.ID = player.ID
        ∧ (g.handlePlayerMobCollision player mob now dropID).2.2.1.ID = mob.ID
        ∧ (g.handlePlayerMobCollision player mob now dropID).1.players = g.players
        ∧ (g.handlePlayerMobCollision player mob now dropID).1.mobs = g.mobs)
      ∧ (¬ (g.handlePlayerMobCollision player mob now dropID).2.2.1.IsAlive →
          (g.handlePlayerMobCollision player mob now dropID).1.petalDrops =
            g.petalDrops ++
              [{ ID := dropID, type := petalTypeForMob mob.type, X := mob.X,
                 Y := mob.Y, OwnerID := player.ID, Zone := pl.CurrentZone,
                 Created := now, Lifetime := 30 }])
      ∧ ((g.handlePlayerMobCollision player mob now dropID).2.2.1.IsAlive →
          (g.handlePlayerMobCollision player mob now dropID).1.petalDrops =
            g.petalDrops))
    ∧ (mob.IsAlive → g.player petal.OwnerID = some pl2 →
        (¬ (g.handlePetalMobCollision petal mob now dropID).2.2.1.IsAlive →
          (g.handlePetalMobCollision petal mob now dropID).1.petalDrops =
            g.petalDrops ++
              [{ ID := dropID, type := petalTypeForMob mob.type, X := mob.X,
                 Y := mob.Y, OwnerID := petal.OwnerID, Zone := pl2.CurrentZone,
                 Created := now, Lifetime := 30 }])
        ∧ ((g.handlePetalMobCollision petal mob now dropID).2.2.1.IsAlive →
            (g.handlePetalMobCollision petal mob now dropID).1.petalDrops =
              g.petalDrops))
    ∧ (petalTypeForMob MobType.wolf = PetalType.wolf
      ∧ petalTypeForMob MobType.goblin = PetalType.goblin
      ∧ petalTypeForMob MobType.orc = PetalType.orc)
    ∧ ((g.mobs.map Mob.ID).Nodup →
        (g.checkCollisions now dropIds).1.petalDrops.length +
          (g.checkCollisions now dropIds).1.mobs.length =
        g.petalDrops.length + aliveCount g.mobs) := by
  refine ⟨?_, ?_, ⟨rfl, rfl, rfl⟩, ?_⟩
  · intro halive hlook
    exact handlePlayerMobCollision_facts g player mob now dropID pl halive hlook
  · intro halive hlook
    exact handlePetalMobCollision_facts g petal mob now dropID pl2 halive hlook
  · intro hnd
    unfold Game.checkCollisions
    dsimp only
    have hinv := collidePlayers_invariant now dropIds (g.mobs.map Mob.ID)
      (g.players.map Player.ID) g 0 hnd
    have hlen : ((g.collidePlayers now dropIds (g.mobs.map Mob.ID)
        (g.players.map Player.ID) 0).1.removeDeadMobs).mobs.length =
        aliveCount (g.collidePlayers now dropIds (g.mobs.map Mob.ID)
          (g.players.map Player.ID) 0).1.mobs := rfl
    rw [hlen]
    exact hinv.2

/-- The mob of the C5 witness: a goblin with 10 health whose own attack
cooldown has not yet elapsed at second 5, overlapping the player. -/
def testMob10 : Mob :=
  { ID := "m1", type := MobType.goblin, Rarity := Rarity.common, Health := 10,
    MaxHealth := 30, Damage := 8, Speed := 10, X := 505, Y := 500,
    Zone := "common", Radius := 7, DetectionRange := 500, TargetX := 0,
    TargetY := 0, LastMoveTime := 0, State := MobState.wandering,
    TargetPlayer := "", AttackCooldown := 0, CreationTime := 0,
    LastHitTime := 4.95 }

/-- The world of the C5 witness. -/
def gC5 : Game :=
  { players := [testPlayer "a" 500 500], mobs := [testMob10], portals := [],
    zones := initialZones, petalDrops := [] }

/-- Witness for C5: in `gC5` the mob is alive, the killer and the petal owner
are in the store, the mob identifiers are distinct, and the collision sweep
preserves the sum of the drop count and the living mob count. -/
theorem C5_exactly_one_drop_per_kill_witness :
    (testMob10.IsAlive
      ∧ gC5.player (testPlayer "a" 500 500).ID = some (testPlayer "a" 500 500)
      ∧ gC5.player (NewPetal PetalType.goblin "a" "p1" 0).OwnerID =
          some (testPlayer "a" 500 500)
      ∧ (gC5.mobs.map Mob.ID).Nodup)
    ∧ ((gC5.handlePetalMobCollision (NewPetal PetalType.goblin "a" "p1" 0)
          testMob10 5 "d0").2.2.1.IsAlive →
        (gC5.handlePetalMobCollision (NewPetal PetalType.goblin "a" "p1" 0)
          testMob10 5 "d0").1.petalDrops = gC5.petalDrops)
    ∧ (petalTypeForMob MobType.goblin = PetalType.goblin)
    ∧ ((gC5.checkCollisions 5 (fun _ => "d0")).1.petalDrops.length +
        (gC5.checkCollisions 5 (fun _ => "d0")).1.mobs.length =
      gC5.petalDrops.length + aliveCount gC5.mobs) := by
  have halive : testMob10.IsAlive := by
    unfold Mob.IsAlive testMob10
    norm_num
  have hlook : gC5.player (testPlayer "a" 500 500).ID =
      some (testPlayer "a" 500 500) := by
    show gC5.player "a" = some (testPlayer "a" 500 500)
    unfold gC5 Game.player testPlayer
    rw [List.find?_cons_of_pos _ (by decide)]
  have hlook2 : gC5.player (NewPetal PetalType.goblin "a" "p1" 0).OwnerID =
      some (testPlayer "a" 500 500) := by
    show gC5.player "a" = some (testPlayer "a" 500 500)
    unfold gC5 Game.player testPlayer
    rw [List.find?_cons_of_pos _ (by decide)]
  have hnd : (gC5.mobs.map Mob.ID).Nodup := by
    show (["m1"] : List String).Nodup
    simp
  have hmain := C5_exactly_one_drop_per_kill gC5 (testPlayer "a" 500 500)
    (NewPetal PetalType.goblin "a" "p1" 0) testMob10 5 "d0" (fun _ => "d0")
    (testPlayer "a" 500 500) (testPlayer "a" 500 500)
  exact ⟨⟨halive, hlook, hlook2, hnd⟩,
    (hmain.2.1 halive hlook2).2, hmain.2.2.1.2.1, hmain.2.2.2 hnd⟩

end Dream
